import Mathlib

/-!
LSM303DLHC register-level driver.

A shallow embedding of `components/lsm303dlhc/lsm303dlhc.c` and its header
`components/lsm303dlhc/include/lsm303dlhc.h`.

* C pointers are `Option`s: `none` is the null pointer, `some v` a pointer to
  an object currently holding `v`.
* `uint8_t` values are naturals; every conversion of an `int` expression to
  `uint8_t` is an explicit `% 256` (`u8`).  `int16_t` values are integers,
  produced by the wrapping conversion `int16_of`.
* The two-wire bus is an external collaborator.  It is modelled by a record
  holding what the bus will answer to the n-th transaction and the log of the
  transactions issued so far; the driver functions pass that record along.
  The 100 ms timeout handed to every transaction is the same constant
  everywhere and is not recorded.
-/

namespace LSM303DLHC

/-! ## Platform types -/

/-- Status code of the platform, a C `int`. -/
abbrev esp_err_t := Int

/-- Success value of the status code of the platform. -/
def ESP_OK : esp_err_t := 0

/-- Out-of-memory status code of the platform. -/
def ESP_ERR_NO_MEM : esp_err_t := 0x101

/-- Invalid-argument status code of the platform. -/
def ESP_ERR_INVALID_ARG : esp_err_t := 0x102

/-- Bus port identifier, a C `int`. -/
abbrev i2c_port_t := Int

/-- Conversion of an `int` expression to `uint8_t`. -/
def u8 (n : Nat) : Nat := n % 256

/-- Conversion `(int16_t)v` of a non-negative `int` expression: the value is
reduced modulo 2^16 into the range -32768..32767. -/
def int16_of (v : Nat) : Int :=
  if v % 65536 < 32768 then ((v % 65536 : Nat) : Int) else ((v % 65536 : Nat) : Int) - 65536

/-! ## The bus -/

/-- One bus transaction as the driver issues it: a plain write of `wbuf` to
the device at `addr`, or a combined write of `wbuf` followed by a read of
`rlen` bytes. -/
inductive Txn
  | write (port : i2c_port_t) (addr : Nat) (wbuf : List Nat)
  | write_read (port : i2c_port_t) (addr : Nat) (wbuf : List Nat) (rlen : Nat)
deriving DecidableEq, Repr

/-- What the bus answers to one transaction: its status code and, for a
combined transaction, the bytes it delivers into the read buffer. -/
structure Reply where
  err : esp_err_t
  rx : List Nat

/-- State of the bus: `replies n` is the answer to the n-th transaction
(counted from 0), `log` the transactions issued so far, oldest first. -/
structure I2cBus where
  replies : Nat → Reply
  log : List Txn

/-- A bus on which nothing has been issued yet. -/
def I2cBus.fresh (replies : Nat → Reply) : I2cBus :=
  { replies := replies, log := [] }

/-- Platform primitive `i2c_master_write_to_device (port, addr, buf, len, timeout)`. -/
def i2c_master_write_to_device (bus : I2cBus) (port : i2c_port_t) (addr : Nat)
    (wbuf : List Nat) : esp_err_t × I2cBus :=
  ((bus.replies bus.log.length).err,
   { bus with log := bus.log ++ [Txn.write port addr wbuf] })

/-- Read buffer after a combined transaction: the delivered bytes overwrite
the buffer from its start, bytes not delivered keep their old value. -/
def fill_rbuf : List Nat → List Nat → List Nat
  | [], _ => []
  | o :: os, [] => o :: os
  | _ :: os, r :: rs => u8 r :: fill_rbuf os rs

/-- Platform primitive
`i2c_master_write_read_device (port, addr, wbuf, wlen, rbuf, rlen, timeout)`;
`rbuf` is the read buffer before the call, the result carries it after. -/
def i2c_master_write_read_device (bus : I2cBus) (port : i2c_port_t) (addr : Nat)
    (wbuf : List Nat) (rbuf : List Nat) : esp_err_t × List Nat × I2cBus :=
  ((bus.replies bus.log.length).err,
   fill_rbuf rbuf (bus.replies bus.log.length).rx,
   { bus with log := bus.log ++ [Txn.write_read port addr wbuf rbuf.length] })

/-! ## Header `lsm303dlhc.h` -/

/-- Bus address of the accelerometer. -/
def LSM303DLHC_ACCEL_ADDR : Nat := 0x19

/-- Bus address of the magnetometer. -/
def LSM303DLHC_MAG_ADDR : Nat := 0x1E

/-- Accelerometer full scale. -/
inductive lsm303dlhc_accel_fs_t
  | LSM303DLHC_ACCEL_FS_2G
  | LSM303DLHC_ACCEL_FS_4G
  | LSM303DLHC_ACCEL_FS_8G
  | LSM303DLHC_ACCEL_FS_16G
deriving DecidableEq, Repr

/-- Enumerator values of the accelerometer full scale. -/
def lsm303dlhc_accel_fs_t.val : lsm303dlhc_accel_fs_t → Nat
  | .LSM303DLHC_ACCEL_FS_2G => 0
  | .LSM303DLHC_ACCEL_FS_4G => 1
  | .LSM303DLHC_ACCEL_FS_8G => 2
  | .LSM303DLHC_ACCEL_FS_16G => 3

/-- Accelerometer output data rate. -/
inductive lsm303dlhc_accel_odr_t
  | LSM303DLHC_ACCEL_ODR_OFF
  | LSM303DLHC_ACCEL_ODR_1HZ
  | LSM303DLHC_ACCEL_ODR_10HZ
  | LSM303DLHC_ACCEL_ODR_25HZ
  | LSM303DLHC_ACCEL_ODR_50HZ
  | LSM303DLHC_ACCEL_ODR_100HZ
  | LSM303DLHC_ACCEL_ODR_200HZ
  | LSM303DLHC_ACCEL_ODR_400HZ
  | LSM303DLHC_ACCEL_ODR_1344HZ
deriving DecidableEq, Repr

/-- Enumerator values of the accelerometer output data rate. -/
def lsm303dlhc_accel_odr_t.val : lsm303dlhc_accel_odr_t → Nat
  | .LSM303DLHC_ACCEL_ODR_OFF => 0
  | .LSM303DLHC_ACCEL_ODR_1HZ => 1
  | .LSM303DLHC_ACCEL_ODR_10HZ => 2
  | .LSM303DLHC_ACCEL_ODR_25HZ => 3
  | .LSM303DLHC_ACCEL_ODR_50HZ => 4
  | .LSM303DLHC_ACCEL_ODR_100HZ => 5
  | .LSM303DLHC_ACCEL_ODR_200HZ => 6
  | .LSM303DLHC_ACCEL_ODR_400HZ => 7
  | .LSM303DLHC_ACCEL_ODR_1344HZ => 9

/-- Magnetometer output data rate. -/
inductive lsm303dlhc_mag_odr_t
  | LSM303DLHC_MAG_ODR_0_75HZ
  | LSM303DLHC_MAG_ODR_1_5HZ
  | LSM303DLHC_MAG_ODR_3_0HZ
  | LSM303DLHC_MAG_ODR_7_5HZ
  | LSM303DLHC_MAG_ODR_15HZ
  | LSM303DLHC_MAG_ODR_30HZ
  | LSM303DLHC_MAG_ODR_75HZ
  | LSM303DLHC_MAG_ODR_220HZ
deriving DecidableEq, Repr

/-- Enumerator values of the magnetometer output data rate. -/
def lsm303dlhc_mag_odr_t.val : lsm303dlhc_mag_odr_t → Nat
  | .LSM303DLHC_MAG_ODR_0_75HZ => 0
  | .LSM303DLHC_MAG_ODR_1_5HZ => 1
  | .LSM303DLHC_MAG_ODR_3_0HZ => 2
  | .LSM303DLHC_MAG_ODR_7_5HZ => 3
  | .LSM303DLHC_MAG_ODR_15HZ => 4
  | .LSM303DLHC_MAG_ODR_30HZ => 5
  | .LSM303DLHC_MAG_ODR_75HZ => 6
  | .LSM303DLHC_MAG_ODR_220HZ => 7

/-- Magnetometer gain. -/
inductive lsm303dlhc_mag_gain_t
  | LSM303DLHC_MAG_GAIN_1_3
  | LSM303DLHC_MAG_GAIN_1_9
  | LSM303DLHC_MAG_GAIN_2_5
  | LSM303DLHC_MAG_GAIN_4_0
  | LSM303DLHC_MAG_GAIN_4_7
  | LSM303DLHC_MAG_GAIN_5_6
  | LSM303DLHC_MAG_GAIN_8_1
deriving DecidableEq, Repr

/-- Enumerator values of the magnetometer gain. -/
def lsm303dlhc_mag_gain_t.val : lsm303dlhc_mag_gain_t → Nat
  | .LSM303DLHC_MAG_GAIN_1_3 => 1
  | .LSM303DLHC_MAG_GAIN_1_9 => 2
  | .LSM303DLHC_MAG_GAIN_2_5 => 3
  | .LSM303DLHC_MAG_GAIN_4_0 => 4
  | .LSM303DLHC_MAG_GAIN_4_7 => 5
  | .LSM303DLHC_MAG_GAIN_5_6 => 6
  | .LSM303DLHC_MAG_GAIN_8_1 => 7

/-- Configuration for INT1 pin routing (CTRL_REG3_A). -/
structure lsm303dlhc_int1_pin_conf_t where
  i1_click : Bool
  i1_aoi1 : Bool
  i1_aoi2 : Bool
  i1_drdy1 : Bool
  i1_drdy2 : Bool
  i1_wtm : Bool
  i1_overrun : Bool
deriving DecidableEq, Repr

/-- Configuration for INT2 pin routing (CTRL_REG6_A). -/
structure lsm303dlhc_int2_pin_conf_t where
  i2_click : Bool
  i2_int1 : Bool
  i2_int2 : Bool
  boot_i1 : Bool
  p2_act : Bool
  h_lactive : Bool
deriving DecidableEq, Repr

/-- Interrupt generator configuration (INT1_CFG_A / INT2_CFG_A); `threshold`
and `duration` are `uint8_t` fields. -/
structure lsm303dlhc_int_event_conf_t where
  aoi : Bool
  six_d : Bool
  zhie : Bool
  zlie : Bool
  yhie : Bool
  ylie : Bool
  xhie : Bool
  xlie : Bool
  threshold : Nat
  duration : Nat
deriving DecidableEq, Repr

/-- Driver configuration. -/
structure lsm303dlhc_config_t where
  i2c_port : i2c_port_t
  accel_fs : lsm303dlhc_accel_fs_t
  accel_odr : lsm303dlhc_accel_odr_t
  mag_odr : lsm303dlhc_mag_odr_t
  mag_gain : lsm303dlhc_mag_gain_t
deriving DecidableEq, Repr

/-- Raw sample: three `int16_t` counts. -/
structure lsm303dlhc_raw_data_t where
  x : Int
  y : Int
  z : Int
deriving DecidableEq, Repr

/-! ## Source `lsm303dlhc.c` -/

def LSM303_CTRL_REG1_A : Nat := 0x20
def LSM303_CTRL_REG3_A : Nat := 0x22
def LSM303_CTRL_REG4_A : Nat := 0x23
def LSM303_CTRL_REG6_A : Nat := 0x25
def LSM303_OUT_X_L_A : Nat := 0x28

def LSM303_INT1_CFG_A : Nat := 0x30
def LSM303_INT1_SRC_A : Nat := 0x31
def LSM303_INT1_THS_A : Nat := 0x32
def LSM303_INT1_DURATION_A : Nat := 0x33

def LSM303_INT2_CFG_A : Nat := 0x34
def LSM303_INT2_SRC_A : Nat := 0x35
def LSM303_INT2_THS_A : Nat := 0x36
def LSM303_INT2_DURATION_A : Nat := 0x37

def LSM303_CRA_REG_M : Nat := 0x00
def LSM303_CRB_REG_M : Nat := 0x01
def LSM303_MR_REG_M : Nat := 0x02
def LSM303_OUT_X_H_M : Nat := 0x03

/-- Auto-increment bit of the accelerometer register address byte. -/
def ACCEL_AUTO_INCR : Nat := 0x80

/-- The device record a handle points to. -/
structure lsm303dlhc_dev_t where
  port : i2c_port_t
  config : lsm303dlhc_config_t
deriving DecidableEq, Repr

/-- A handle is a pointer to a device record; `none` is the null handle. -/
abbrev lsm303dlhc_handle_t := Option lsm303dlhc_dev_t

/-- Source function `write_reg`: one plain write of the two bytes `reg`, `data`. -/
def write_reg (bus : I2cBus) (port : i2c_port_t) (addr reg data : Nat) : esp_err_t × I2cBus :=
  i2c_master_write_to_device bus port addr [reg, data]

/-- Source function `read_reg`: one combined transaction writing `reg` and
reading one byte into `val`; returns the status and `val` after the call. -/
def read_reg (bus : I2cBus) (port : i2c_port_t) (addr reg : Nat) (val : Nat) :
    esp_err_t × Nat × I2cBus :=
  let r := i2c_master_write_read_device bus port addr [reg] [val]
  (r.1, r.2.1.headD val, r.2.2)

/-! ### Initialisation and release -/

/-- Local `ctrl1_a` of `lsm303dlhc_init`: the byte for CTRL_REG1_A. -/
def ctrl1_a (config : lsm303dlhc_config_t) : Nat :=
  u8 ((config.accel_odr.val <<< 4) ||| 0x07)

/-- Local `ctrl4_a` of `lsm303dlhc_init`: the byte for CTRL_REG4_A. -/
def ctrl4_a (config : lsm303dlhc_config_t) : Nat :=
  u8 (0x88 ||| (config.accel_fs.val <<< 4))

/-- Local `cra_m` of `lsm303dlhc_init`: the byte for CRA_REG_M. -/
def cra_m (config : lsm303dlhc_config_t) : Nat :=
  u8 (config.mag_odr.val <<< 2)

/-- Local `crb_m` of `lsm303dlhc_init`: the byte for CRB_REG_M. -/
def crb_m (config : lsm303dlhc_config_t) : Nat :=
  u8 (config.mag_gain.val <<< 5)

/-- Outcome of `lsm303dlhc_init`: the returned status, the bus afterwards,
the handle slot of the caller afterwards (`none` when no slot was passed), whether
`calloc` handed out a device record and whether `free` was called on it. -/
structure InitResult where
  ret : esp_err_t
  bus : I2cBus
  ret_handle : Option lsm303dlhc_handle_t
  allocated : Bool
  freed : Bool

/-- Label `err:` of `lsm303dlhc_init`: the record is freed, the status of the
failed write is returned, the slot of the caller is not assigned. -/
def lsm303dlhc_init_err (ret : esp_err_t) (bus : I2cBus) (slot : lsm303dlhc_handle_t) :
    InitResult :=
  { ret := ret, bus := bus, ret_handle := some slot, allocated := true, freed := true }

/-- Source function `lsm303dlhc_init`.  `calloc_ok` says whether `calloc`
returns a block; `ret_handle` is the handle slot of the caller with the value it
holds before the call. -/
def lsm303dlhc_init (bus : I2cBus) (calloc_ok : Bool) (config : Option lsm303dlhc_config_t)
    (ret_handle : Option lsm303dlhc_handle_t) : InitResult :=
  match config, ret_handle with
  | some config, some slot =>
    if calloc_ok then
      let dev : lsm303dlhc_dev_t := { port := config.i2c_port, config := config }
      let w1 := write_reg bus dev.port LSM303DLHC_ACCEL_ADDR LSM303_CTRL_REG1_A (ctrl1_a config)
      if w1.1 ≠ ESP_OK then lsm303dlhc_init_err w1.1 w1.2 slot else
      let w2 := write_reg w1.2 dev.port LSM303DLHC_ACCEL_ADDR LSM303_CTRL_REG4_A (ctrl4_a config)
      if w2.1 ≠ ESP_OK then lsm303dlhc_init_err w2.1 w2.2 slot else
      let w3 := write_reg w2.2 dev.port LSM303DLHC_MAG_ADDR LSM303_CRA_REG_M (cra_m config)
      if w3.1 ≠ ESP_OK then lsm303dlhc_init_err w3.1 w3.2 slot else
      let w4 := write_reg w3.2 dev.port LSM303DLHC_MAG_ADDR LSM303_CRB_REG_M (crb_m config)
      if w4.1 ≠ ESP_OK then lsm303dlhc_init_err w4.1 w4.2 slot else
      let w5 := write_reg w4.2 dev.port LSM303DLHC_MAG_ADDR LSM303_MR_REG_M 0x00
      if w5.1 ≠ ESP_OK then lsm303dlhc_init_err w5.1 w5.2 slot else
      { ret := ESP_OK, bus := w5.2, ret_handle := some (some dev),
        allocated := true, freed := false }
    else
      { ret := ESP_ERR_NO_MEM, bus := bus, ret_handle := some slot,
        allocated := false, freed := false }
  | _, _ =>
    { ret := ESP_ERR_INVALID_ARG, bus := bus, ret_handle := ret_handle,
      allocated := false, freed := false }

/-- Outcome of `lsm303dlhc_deinit`: the returned status, the bus afterwards
and whether `free` was called on the handle. -/
structure DeinitResult where
  ret : esp_err_t
  bus : I2cBus
  freed : Bool

/-- Source function `lsm303dlhc_deinit`. -/
def lsm303dlhc_deinit (bus : I2cBus) (handle : lsm303dlhc_handle_t) : DeinitResult :=
  match handle with
  | some _ => { ret := ESP_OK, bus := bus, freed := true }
  | none => { ret := ESP_OK, bus := bus, freed := false }

/-! ### Sample reads -/

/-- Outcome of a sample read: the returned status, the bus afterwards and the
sample of the caller afterwards (`none` when no sample reference was passed). -/
structure ReadResult where
  ret : esp_err_t
  bus : I2cBus
  data : Option lsm303dlhc_raw_data_t

/-- Source function `lsm303dlhc_read_accel`.  The local `buf` is not
initialised in the source; it starts as zeros here, which shows only when a
reply delivers fewer than six bytes. -/
def lsm303dlhc_read_accel (bus : I2cBus) (handle : lsm303dlhc_handle_t)
    (data : Option lsm303dlhc_raw_data_t) : ReadResult :=
  match handle, data with
  | some dev, some old =>
    let reg := u8 (LSM303_OUT_X_L_A ||| ACCEL_AUTO_INCR)
    let r := i2c_master_write_read_device bus dev.port LSM303DLHC_ACCEL_ADDR [reg]
      [0, 0, 0, 0, 0, 0]
    if r.1 ≠ ESP_OK then { ret := r.1, bus := r.2.2, data := some old } else
    let buf := r.2.1
    { ret := ESP_OK, bus := r.2.2,
      data := some
        { x := int16_of ((buf.getD 1 0 <<< 8) ||| buf.getD 0 0),
          y := int16_of ((buf.getD 3 0 <<< 8) ||| buf.getD 2 0),
          z := int16_of ((buf.getD 5 0 <<< 8) ||| buf.getD 4 0) } }
  | _, _ => { ret := ESP_ERR_INVALID_ARG, bus := bus, data := data }

/-- Source function `lsm303dlhc_read_mag`; the local `buf` as in
`lsm303dlhc_read_accel`. -/
def lsm303dlhc_read_mag (bus : I2cBus) (handle : lsm303dlhc_handle_t)
    (data : Option lsm303dlhc_raw_data_t) : ReadResult :=
  match handle, data with
  | some dev, some old =>
    let reg := LSM303_OUT_X_H_M
    let r := i2c_master_write_read_device bus dev.port LSM303DLHC_MAG_ADDR [reg]
      [0, 0, 0, 0, 0, 0]
    if r.1 ≠ ESP_OK then { ret := r.1, bus := r.2.2, data := some old } else
    let buf := r.2.1
    { ret := ESP_OK, bus := r.2.2,
      data := some
        { x := int16_of ((buf.getD 0 0 <<< 8) ||| buf.getD 1 0),
          y := int16_of ((buf.getD 4 0 <<< 8) ||| buf.getD 5 0),
          z := int16_of ((buf.getD 2 0 <<< 8) ||| buf.getD 3 0) } }
  | _, _ => { ret := ESP_ERR_INVALID_ARG, bus := bus, data := data }

/-! ### Interrupt pin routing -/

/-- Local `reg_val` of `lsm303dlhc_config_int1_pin`, a `uint8_t` built by
one conditional or-assignment per flag. -/
def int1_pin_reg_val (conf : lsm303dlhc_int1_pin_conf_t) : Nat :=
  let reg_val := 0
  let reg_val := if conf.i1_click then u8 (reg_val ||| (1 <<< 7)) else reg_val
  let reg_val := if conf.i1_aoi1 then u8 (reg_val ||| (1 <<< 6)) else reg_val
  let reg_val := if conf.i1_aoi2 then u8 (reg_val ||| (1 <<< 5)) else reg_val
  let reg_val := if conf.i1_drdy1 then u8 (reg_val ||| (1 <<< 4)) else reg_val
  let reg_val := if conf.i1_drdy2 then u8 (reg_val ||| (1 <<< 3)) else reg_val
  let reg_val := if conf.i1_wtm then u8 (reg_val ||| (1 <<< 2)) else reg_val
  let reg_val := if conf.i1_overrun then u8 (reg_val ||| (1 <<< 1)) else reg_val
  reg_val

/-- Source function `lsm303dlhc_config_int1_pin`. -/
def lsm303dlhc_config_int1_pin (bus : I2cBus) (handle : lsm303dlhc_handle_t)
    (conf : Option lsm303dlhc_int1_pin_conf_t) : esp_err_t × I2cBus :=
  match handle, conf with
  | some dev, some conf =>
    write_reg bus dev.port LSM303DLHC_ACCEL_ADDR LSM303_CTRL_REG3_A (int1_pin_reg_val conf)
  | _, _ => (ESP_ERR_INVALID_ARG, bus)

/-- Local `reg_val` of `lsm303dlhc_config_int2_pin`. -/
def int2_pin_reg_val (conf : lsm303dlhc_int2_pin_conf_t) : Nat :=
  let reg_val := 0
  let reg_val := if conf.i2_click then u8 (reg_val ||| (1 <<< 7)) else reg_val
  let reg_val := if conf.i2_int1 then u8 (reg_val ||| (1 <<< 6)) else reg_val
  let reg_val := if conf.i2_int2 then u8 (reg_val ||| (1 <<< 5)) else reg_val
  let reg_val := if conf.boot_i1 then u8 (reg_val ||| (1 <<< 4)) else reg_val
  let reg_val := if conf.p2_act then u8 (reg_val ||| (1 <<< 3)) else reg_val
  let reg_val := if conf.h_lactive then u8 (reg_val ||| (1 <<< 1)) else reg_val
  reg_val

/-- Source function `lsm303dlhc_config_int2_pin`. -/
def lsm303dlhc_config_int2_pin (bus : I2cBus) (handle : lsm303dlhc_handle_t)
    (conf : Option lsm303dlhc_int2_pin_conf_t) : esp_err_t × I2cBus :=
  match handle, conf with
  | some dev, some conf =>
    write_reg bus dev.port LSM303DLHC_ACCEL_ADDR LSM303_CTRL_REG6_A (int2_pin_reg_val conf)
  | _, _ => (ESP_ERR_INVALID_ARG, bus)

/-! ### Interrupt event generators -/

/-- Local `cfg_val` of `config_int_event_gen`. -/
def cfg_val (conf : lsm303dlhc_int_event_conf_t) : Nat :=
  let cfg_val := 0
  let cfg_val := if conf.aoi then u8 (cfg_val ||| (1 <<< 7)) else cfg_val
  let cfg_val := if conf.six_d then u8 (cfg_val ||| (1 <<< 6)) else cfg_val
  let cfg_val := if conf.zhie then u8 (cfg_val ||| (1 <<< 5)) else cfg_val
  let cfg_val := if conf.zlie then u8 (cfg_val ||| (1 <<< 4)) else cfg_val
  let cfg_val := if conf.yhie then u8 (cfg_val ||| (1 <<< 3)) else cfg_val
  let cfg_val := if conf.ylie then u8 (cfg_val ||| (1 <<< 2)) else cfg_val
  let cfg_val := if conf.xhie then u8 (cfg_val ||| (1 <<< 1)) else cfg_val
  let cfg_val := if conf.xlie then u8 (cfg_val ||| (1 <<< 0)) else cfg_val
  cfg_val

/-- Source function `config_int_event_gen`. -/
def config_int_event_gen (bus : I2cBus) (handle : lsm303dlhc_handle_t)
    (conf : Option lsm303dlhc_int_event_conf_t) (cfg_reg ths_reg dur_reg : Nat) :
    esp_err_t × I2cBus :=
  match handle, conf with
  | some dev, some conf =>
    let w1 := write_reg bus dev.port LSM303DLHC_ACCEL_ADDR ths_reg (u8 (conf.threshold &&& 0x7F))
    if w1.1 ≠ ESP_OK then (w1.1, w1.2) else
    let w2 := write_reg w1.2 dev.port LSM303DLHC_ACCEL_ADDR dur_reg (u8 (conf.duration &&& 0x7F))
    if w2.1 ≠ ESP_OK then (w2.1, w2.2) else
    write_reg w2.2 dev.port LSM303DLHC_ACCEL_ADDR cfg_reg (cfg_val conf)
  | _, _ => (ESP_ERR_INVALID_ARG, bus)

/-- Source function `lsm303dlhc_config_int1_event`. -/
def lsm303dlhc_config_int1_event (bus : I2cBus) (handle : lsm303dlhc_handle_t)
    (conf : Option lsm303dlhc_int_event_conf_t) : esp_err_t × I2cBus :=
  config_int_event_gen bus handle conf LSM303_INT1_CFG_A LSM303_INT1_THS_A
    LSM303_INT1_DURATION_A

/-- Source function `lsm303dlhc_config_int2_event`. -/
def lsm303dlhc_config_int2_event (bus : I2cBus) (handle : lsm303dlhc_handle_t)
    (conf : Option lsm303dlhc_int_event_conf_t) : esp_err_t × I2cBus :=
  config_int_event_gen bus handle conf LSM303_INT2_CFG_A LSM303_INT2_THS_A
    LSM303_INT2_DURATION_A

/-! ### Interrupt source query -/

/-- Outcome of an interrupt source query: the returned status, the bus
afterwards and the byte of the caller afterwards (`none` when no reference was
passed). -/
structure SrcResult where
  ret : esp_err_t
  bus : I2cBus
  src : Option Nat

/-- Source function `lsm303dlhc_get_int1_src`. -/
def lsm303dlhc_get_int1_src (bus : I2cBus) (handle : lsm303dlhc_handle_t)
    (src : Option Nat) : SrcResult :=
  match handle, src with
  | some dev, some old =>
    let r := read_reg bus dev.port LSM303DLHC_ACCEL_ADDR LSM303_INT1_SRC_A old
    { ret := r.1, bus := r.2.2, src := some r.2.1 }
  | _, _ => { ret := ESP_ERR_INVALID_ARG, bus := bus, src := src }

/-- Source function `lsm303dlhc_get_int2_src`. -/
def lsm303dlhc_get_int2_src (bus : I2cBus) (handle : lsm303dlhc_handle_t)
    (src : Option Nat) : SrcResult :=
  match handle, src with
  | some dev, some old =>
    let r := read_reg bus dev.port LSM303DLHC_ACCEL_ADDR LSM303_INT2_SRC_A old
    { ret := r.1, bus := r.2.2, src := some r.2.1 }
  | _, _ => { ret := ESP_ERR_INVALID_ARG, bus := bus, src := src }

/-! ## Example application `lsm303dlhc_test.c` -/

/-- The configuration `app_main` passes to `lsm303dlhc_init`. -/
def app_config : lsm303dlhc_config_t :=
  { i2c_port := 0,
    accel_fs := .LSM303DLHC_ACCEL_FS_2G,
    accel_odr := .LSM303DLHC_ACCEL_ODR_50HZ,
    mag_odr := .LSM303DLHC_MAG_ODR_7_5HZ,
    mag_gain := .LSM303DLHC_MAG_GAIN_1_3 }

/-- The device record `lsm303dlhc_init` builds from `app_config`. -/
def app_dev : lsm303dlhc_dev_t :=
  { port := app_config.i2c_port, config := app_config }

/-- A bus that answers every transaction with success and delivers `rx`. -/
def bus_ok (rx : List Nat) : Nat → Reply :=
  fun _ => { err := ESP_OK, rx := rx }

/-- A bus whose transaction number `k` (counted from 0) fails with `e`, all
others succeeding. -/
def bus_fail_at (k : Nat) (e : esp_err_t) : Nat → Reply :=
  fun n => { err := if n = k then e else ESP_OK, rx := [] }

/-! ## Relation between the two event generators -/

/-- Follows the wording of the specification for the relation between the
two pin generators: the same plain write with its register address, the
first byte written, raised by `d`; other transactions are left as they are. -/
def raise_reg (d : Nat) : Txn → Txn
  | .write port addr (reg :: rest) => .write port addr ((reg + d) :: rest)
  | t => t

/-! ## Auxiliary facts -/

/-- A byte shifted into the high half and or-ed with a byte is the two-byte
number with those digits. -/
theorem shl8_or_eq (hi lo : Nat) (hlo : lo < 256) : (hi <<< 8) ||| lo = 256 * hi + lo := by
  have h := Nat.mul_add_lt_is_or (i := 8) (b := lo) (by simpa using hlo) hi
  rw [Nat.shiftLeft_eq, Nat.mul_comm hi (2 ^ 8), ← h]

/-- The 16-bit pattern of `int16_of v` is `v` itself when `v` fits 16 bits. -/
theorem int16_of_pattern (v : Nat) (hv : v < 65536) : int16_of v % 65536 = (v : Int) := by
  unfold int16_of
  rw [Nat.mod_eq_of_lt hv]
  split <;> omega

/-- The value `int16_of v` lies in the `int16_t` range. -/
theorem int16_of_range (v : Nat) : -32768 ≤ int16_of v ∧ int16_of v < 32768 := by
  unfold int16_of
  split <;> omega

/-- Two bytes combine to a number that fits 16 bits. -/
theorem two_bytes_lt (hi lo : Nat) (hhi : hi < 256) (hlo : lo < 256) :
    (hi <<< 8) ||| lo < 65536 := by
  rw [shl8_or_eq hi lo hlo]
  omega

/-- The byte for CTRL_REG1_A loses nothing in the conversion to `uint8_t`. -/
theorem ctrl1_a_eq (config : lsm303dlhc_config_t) :
    ctrl1_a config = (config.accel_odr.val <<< 4) ||| 0x07 := by
  rcases config with ⟨port, fs, odr, modr, gain⟩
  cases odr <;> simp [ctrl1_a, u8, lsm303dlhc_accel_odr_t.val]

/-- The byte for CTRL_REG4_A loses nothing in the conversion to `uint8_t`. -/
theorem ctrl4_a_eq (config : lsm303dlhc_config_t) :
    ctrl4_a config = 0x88 ||| (config.accel_fs.val <<< 4) := by
  rcases config with ⟨port, fs, odr, modr, gain⟩
  cases fs <;> simp [ctrl4_a, u8, lsm303dlhc_accel_fs_t.val]

/-- The byte for CRA_REG_M loses nothing in the conversion to `uint8_t`. -/
theorem cra_m_eq (config : lsm303dlhc_config_t) :
    cra_m config = config.mag_odr.val <<< 2 := by
  rcases config with ⟨port, fs, odr, modr, gain⟩
  cases modr <;> simp [cra_m, u8, lsm303dlhc_mag_odr_t.val]

/-- The byte for CRB_REG_M loses nothing in the conversion to `uint8_t`. -/
theorem crb_m_eq (config : lsm303dlhc_config_t) :
    crb_m config = config.mag_gain.val <<< 5 := by
  rcases config with ⟨port, fs, odr, modr, gain⟩
  cases gain <;> simp [crb_m, u8, lsm303dlhc_mag_gain_t.val]

/-- Masking to seven bits leaves a value that the conversion to `uint8_t`
does not change. -/
theorem mask7_u8 (t : Nat) : u8 (t &&& 0x7F) = t &&& 0x7F := by
  have h : t &&& 0x7F < 2 ^ 7 := Nat.and_lt_two_pow t (by decide)
  unfold u8
  exact Nat.mod_eq_of_lt (by omega)

/-- A value masked to seven bits is below 128. -/
theorem mask7_lt (t : Nat) : t &&& 0x7F < 128 := by
  have h : t &&& 0x7F < 2 ^ 7 := Nat.and_lt_two_pow t (by decide)
  omega

/-! ## Sample reads: byte order and axis order -/

/-- C1: for every six-byte response `b0..b5` of a successful bus read,
`lsm303dlhc_read_accel` with a present handle and output returns success and
stores x, y, z as the signed 16-bit values of `(b1<<8)|b0`, `(b3<<8)|b2`,
`(b5<<8)|b4`; the 16-bit patterns of the stored values are `256*b1+b0`,
`256*b3+b2`, `256*b5+b4` (low byte first, axis order X, Y, Z).  The bytes
34 12 78 56 BC 9A give the patterns 0x1234, 0x5678, 0x9ABC. -/
theorem read_accel_little_endian (replies : Nat → Reply) (dev : lsm303dlhc_dev_t)
    (old : lsm303dlhc_raw_data_t) (b0 b1 b2 b3 b4 b5 : Nat)
    (hb0 : b0 < 256) (hb1 : b1 < 256) (hb2 : b2 < 256)
    (hb3 : b3 < 256) (hb4 : b4 < 256) (hb5 : b5 < 256)
    (herr : (replies 0).err = ESP_OK)
    (hrx : (replies 0).rx = [b0, b1, b2, b3, b4, b5]) :
    (lsm303dlhc_read_accel (I2cBus.fresh replies) (some dev) (some old)).ret = ESP_OK ∧
    (lsm303dlhc_read_accel (I2cBus.fresh replies) (some dev) (some old)).data =
      some { x := int16_of ((b1 <<< 8) ||| b0),
             y := int16_of ((b3 <<< 8) ||| b2),
             z := int16_of ((b5 <<< 8) ||| b4) } ∧
    int16_of ((b1 <<< 8) ||| b0) % 65536 = ((256 * b1 + b0 : Nat) : Int) ∧
    int16_of ((b3 <<< 8) ||| b2) % 65536 = ((256 * b3 + b2 : Nat) : Int) ∧
    int16_of ((b5 <<< 8) ||| b4) % 65536 = ((256 * b5 + b4 : Nat) : Int) ∧
    (lsm303dlhc_read_accel
        (I2cBus.fresh fun _ => { err := ESP_OK, rx := [0x34, 0x12, 0x78, 0x56, 0xBC, 0x9A] })
        (some dev) (some old)).data =
      some { x := 0x1234, y := 0x5678, z := 0x9ABC - 65536 } := by
  refine ⟨?_, ?_, ?_, ?_, ?_, ?_⟩
  · simp [lsm303dlhc_read_accel, i2c_master_write_read_device, I2cBus.fresh, herr]
  · simp [lsm303dlhc_read_accel, i2c_master_write_read_device, I2cBus.fresh, herr, hrx,
      fill_rbuf, u8, Nat.mod_eq_of_lt, hb0, hb1, hb2, hb3, hb4, hb5]
  · rw [← shl8_or_eq b1 b0 hb0]
    exact int16_of_pattern _ (two_bytes_lt b1 b0 hb1 hb0)
  · rw [← shl8_or_eq b3 b2 hb2]
    exact int16_of_pattern _ (two_bytes_lt b3 b2 hb3 hb2)
  · rw [← shl8_or_eq b5 b4 hb4]
    exact int16_of_pattern _ (two_bytes_lt b5 b4 hb5 hb4)
  · simp [lsm303dlhc_read_accel, i2c_master_write_read_device, I2cBus.fresh, ESP_OK,
      fill_rbuf, u8, int16_of]

/-- C1 at a concrete input: the bytes 34 12 78 56 BC 9A read for the device of
the example application. -/
theorem read_accel_little_endian_witness :
    (lsm303dlhc_read_accel
        (I2cBus.fresh (bus_ok [0x34, 0x12, 0x78, 0x56, 0xBC, 0x9A]))
        (some app_dev) (some { x := 0, y := 0, z := 0 })).ret = ESP_OK ∧
    (lsm303dlhc_read_accel
        (I2cBus.fresh (bus_ok [0x34, 0x12, 0x78, 0x56, 0xBC, 0x9A]))
        (some app_dev) (some { x := 0, y := 0, z := 0 })).data =
      some { x := int16_of ((0x12 <<< 8) ||| 0x34),
             y := int16_of ((0x56 <<< 8) ||| 0x78),
             z := int16_of ((0x9A <<< 8) ||| 0xBC) } :=
  have h := read_accel_little_endian (bus_ok [0x34, 0x12, 0x78, 0x56, 0xBC, 0x9A]) app_dev
    { x := 0, y := 0, z := 0 } 0x34 0x12 0x78 0x56 0xBC 0x9A
    (by decide) (by decide) (by decide) (by decide) (by decide) (by decide) rfl rfl
  ⟨h.1, h.2.1⟩

/-- C2: for every six-byte response `b0..b5` of a successful bus read,
`lsm303dlhc_read_mag` with a present handle and output returns success and
stores x, z, y as the signed 16-bit values of `(b0<<8)|b1`, `(b2<<8)|b3`,
`(b4<<8)|b5`; the 16-bit patterns of the stored values are `256*b0+b1`,
`256*b2+b3`, `256*b4+b5` (high byte first, register order X, Z, Y).  The
bytes 12 34 56 78 9A BC give the patterns x = 0x1234, z = 0x5678,
y = 0x9ABC. -/
theorem read_mag_big_endian_xzy (replies : Nat → Reply) (dev : lsm303dlhc_dev_t)
    (old : lsm303dlhc_raw_data_t) (b0 b1 b2 b3 b4 b5 : Nat)
    (hb0 : b0 < 256) (hb1 : b1 < 256) (hb2 : b2 < 256)
    (hb3 : b3 < 256) (hb4 : b4 < 256) (hb5 : b5 < 256)
    (herr : (replies 0).err = ESP_OK)
    (hrx : (replies 0).rx = [b0, b1, b2, b3, b4, b5]) :
    (lsm303dlhc_read_mag (I2cBus.fresh replies) (some dev) (some old)).ret = ESP_OK ∧
    (lsm303dlhc_read_mag (I2cBus.fresh replies) (some dev) (some old)).data =
      some { x := int16_of ((b0 <<< 8) ||| b1),
             z := int16_of ((b2 <<< 8) ||| b3),
             y := int16_of ((b4 <<< 8) ||| b5) } ∧
    int16_of ((b0 <<< 8) ||| b1) % 65536 = ((256 * b0 + b1 : Nat) : Int) ∧
    int16_of ((b2 <<< 8) ||| b3) % 65536 = ((256 * b2 + b3 : Nat) : Int) ∧
    int16_of ((b4 <<< 8) ||| b5) % 65536 = ((256 * b4 + b5 : Nat) : Int) ∧
    (lsm303dlhc_read_mag
        (I2cBus.fresh fun _ => { err := ESP_OK, rx := [0x12, 0x34, 0x56, 0x78, 0x9A, 0xBC] })
        (some dev) (some old)).data =
      some { x := 0x1234, z := 0x5678, y := 0x9ABC - 65536 } := by
  refine ⟨?_, ?_, ?_, ?_, ?_, ?_⟩
  · simp [lsm303dlhc_read_mag, i2c_master_write_read_device, I2cBus.fresh, herr]
  · simp [lsm303dlhc_read_mag, i2c_master_write_read_device, I2cBus.fresh, herr, hrx,
      fill_rbuf, u8, Nat.mod_eq_of_lt, hb0, hb1, hb2, hb3, hb4, hb5]
  · rw [← shl8_or_eq b0 b1 hb1]
    exact int16_of_pattern _ (two_bytes_lt b0 b1 hb0 hb1)
  · rw [← shl8_or_eq b2 b3 hb3]
    exact int16_of_pattern _ (two_bytes_lt b2 b3 hb2 hb3)
  · rw [← shl8_or_eq b4 b5 hb5]
    exact int16_of_pattern _ (two_bytes_lt b4 b5 hb4 hb5)
  · simp [lsm303dlhc_read_mag, i2c_master_write_read_device, I2cBus.fresh, ESP_OK,
      fill_rbuf, u8, int16_of]

/-- C2 at a concrete input: the bytes 12 34 56 78 9A BC read for the device of
the example application. -/
theorem read_mag_big_endian_xzy_witness :
    (lsm303dlhc_read_mag
        (I2cBus.fresh (bus_ok [0x12, 0x34, 0x56, 0x78, 0x9A, 0xBC]))
        (some app_dev) (some { x := 0, y := 0, z := 0 })).ret = ESP_OK ∧
    (lsm303dlhc_read_mag
        (I2cBus.fresh (bus_ok [0x12, 0x34, 0x56, 0x78, 0x9A, 0xBC]))
        (some app_dev) (some { x := 0, y := 0, z := 0 })).data =
      some { x := int16_of ((0x12 <<< 8) ||| 0x34),
             z := int16_of ((0x56 <<< 8) ||| 0x78),
             y := int16_of ((0x9A <<< 8) ||| 0xBC) } :=
  have h := read_mag_big_endian_xzy (bus_ok [0x12, 0x34, 0x56, 0x78, 0x9A, 0xBC]) app_dev
    { x := 0, y := 0, z := 0 } 0x12 0x34 0x56 0x78 0x9A 0xBC
    (by decide) (by decide) (by decide) (by decide) (by decide) (by decide) rfl rfl
  ⟨h.1, h.2.1⟩

/-! ## Initialisation -/

/-- C3, as stated, fails: on a bus where every write succeeds, a call with a
present configuration and a present handle slot whose `calloc` returns null
issues no write at all, returns the out-of-memory status and leaves the slot
as it was. -/
theorem init_all_writes_ok_no_mem :
    (∀ n, (bus_ok [] n).err = ESP_OK) ∧
    (lsm303dlhc_init (I2cBus.fresh (bus_ok [])) false (some app_config) (some none)).ret
      = ESP_ERR_NO_MEM ∧
    (lsm303dlhc_init (I2cBus.fresh (bus_ok [])) false (some app_config) (some none)).ret
      ≠ ESP_OK ∧
    (lsm303dlhc_init (I2cBus.fresh (bus_ok [])) false (some app_config) (some none)).bus.log
      = [] ∧
    (lsm303dlhc_init (I2cBus.fresh (bus_ok [])) false (some app_config) (some none)).ret_handle
      = some none := by
  refine ⟨fun _ => rfl, rfl, by decide, rfl, rfl⟩

/-- C3, amended: for every configuration passed with a present handle slot,
when the allocation of the device record succeeds and each of the bus
writes succeeds, `lsm303dlhc_init` issues exactly five register writes, in this
order and nothing else: (0x19, 0x20, (accel_odr<<4)|0x07),
(0x19, 0x23, 0x88|(accel_fs<<4)), (0x1E, 0x00, mag_odr<<2),
(0x1E, 0x01, mag_gain<<5), (0x1E, 0x02, 0x00); it returns success and
stores a handle to a record of the port and the configuration, which it does
not free. -/
theorem init_five_writes (replies : Nat → Reply) (config : lsm303dlhc_config_t)
    (slot : lsm303dlhc_handle_t)
    (hok : ∀ n, n < 5 → (replies n).err = ESP_OK) :
    (lsm303dlhc_init (I2cBus.fresh replies) true (some config) (some slot)).bus.log =
      [ Txn.write config.i2c_port 0x19 [0x20, (config.accel_odr.val <<< 4) ||| 0x07],
        Txn.write config.i2c_port 0x19 [0x23, 0x88 ||| (config.accel_fs.val <<< 4)],
        Txn.write config.i2c_port 0x1E [0x00, config.mag_odr.val <<< 2],
        Txn.write config.i2c_port 0x1E [0x01, config.mag_gain.val <<< 5],
        Txn.write config.i2c_port 0x1E [0x02, 0x00] ] ∧
    (lsm303dlhc_init (I2cBus.fresh replies) true (some config) (some slot)).ret = ESP_OK ∧
    (lsm303dlhc_init (I2cBus.fresh replies) true (some config) (some slot)).ret_handle =
      some (some { port := config.i2c_port, config := config }) ∧
    (lsm303dlhc_init (I2cBus.fresh replies) true (some config) (some slot)).freed = false := by
  have h0 := hok 0 (by decide)
  have h1 := hok 1 (by decide)
  have h2 := hok 2 (by decide)
  have h3 := hok 3 (by decide)
  have h4 := hok 4 (by decide)
  simp [lsm303dlhc_init, write_reg, i2c_master_write_to_device, I2cBus.fresh,
    h0, h1, h2, h3, h4, ← ctrl1_a_eq, ← ctrl4_a_eq, ← cra_m_eq, ← crb_m_eq,
    LSM303DLHC_ACCEL_ADDR, LSM303DLHC_MAG_ADDR, LSM303_CTRL_REG1_A, LSM303_CTRL_REG4_A,
    LSM303_CRA_REG_M, LSM303_CRB_REG_M, LSM303_MR_REG_M]

/-- C3, amended, at a concrete input: the configuration of the example
application on a bus that always succeeds. -/
theorem init_five_writes_witness :
    (∀ n, n < 5 → (bus_ok [] n).err = ESP_OK) ∧
    (lsm303dlhc_init (I2cBus.fresh (bus_ok [])) true (some app_config) (some none)).bus.log =
      [ Txn.write 0 0x19 [0x20, 0x47], Txn.write 0 0x19 [0x23, 0x88],
        Txn.write 0 0x1E [0x00, 0x0C], Txn.write 0 0x1E [0x01, 0x20],
        Txn.write 0 0x1E [0x02, 0x00] ] ∧
    (lsm303dlhc_init (I2cBus.fresh (bus_ok [])) true (some app_config) (some none)).ret
      = ESP_OK :=
  have h := init_five_writes (bus_ok []) app_config none (fun _ _ => rfl)
  ⟨fun _ _ => rfl, h.1, h.2.1⟩

/-- C4: the four full-scale settings have the values 0, 1, 2, 3; for each
of them the second write of `lsm303dlhc_init`, issued exactly when the first
write succeeded, goes to the scale register 0x23 of the accelerometer and
carries the byte `0x88 | (fs << 4)`, which fits eight bits; decoding its bits
4-5, `(byte >> 4) & 0x3`, gives `fs` back; bits 7 and 3 are set and all bits
other than 4 and 5 are as in 0x88, that is bits 6, 2, 1, 0 are clear. -/
theorem init_scale_byte_roundtrip (replies : Nat → Reply) (config : lsm303dlhc_config_t)
    (slot : lsm303dlhc_handle_t) :
    (lsm303dlhc_init (I2cBus.fresh replies) true (some config) (some slot)).bus.log[1]? =
      (if (replies 0).err = ESP_OK then
        some (Txn.write config.i2c_port 0x19 [0x23, 0x88 ||| (config.accel_fs.val <<< 4)])
       else none) ∧
    ctrl4_a config = 0x88 ||| (config.accel_fs.val <<< 4) ∧
    ((0x88 ||| (config.accel_fs.val <<< 4)) >>> 4) &&& 0x3 = config.accel_fs.val ∧
    (0x88 ||| (config.accel_fs.val <<< 4)).testBit 7 = true ∧
    (0x88 ||| (config.accel_fs.val <<< 4)).testBit 3 = true ∧
    (0x88 ||| (config.accel_fs.val <<< 4)) &&& 0xCF = 0x88 ∧
    0x88 ||| (config.accel_fs.val <<< 4) < 256 ∧
    [lsm303dlhc_accel_fs_t.LSM303DLHC_ACCEL_FS_2G.val,
     lsm303dlhc_accel_fs_t.LSM303DLHC_ACCEL_FS_4G.val,
     lsm303dlhc_accel_fs_t.LSM303DLHC_ACCEL_FS_8G.val,
     lsm303dlhc_accel_fs_t.LSM303DLHC_ACCEL_FS_16G.val] = [0, 1, 2, 3] := by
  refine ⟨?_, ctrl4_a_eq config, ?_, ?_, ?_, ?_, ?_, by decide⟩
  · simp only [lsm303dlhc_init, write_reg, i2c_master_write_to_device, I2cBus.fresh,
      ← ctrl4_a_eq, lsm303dlhc_init_err, LSM303DLHC_ACCEL_ADDR, LSM303_CTRL_REG4_A]
    simp
    split_ifs <;> simp
  all_goals
    rcases config with ⟨port, fs, odr, modr, gain⟩
    cases fs <;> simp only [lsm303dlhc_accel_fs_t.val] <;> decide

/-- C5: the accelerometer output-rate enumerators have the values 0..7 and
9; for each of them the first write of `lsm303dlhc_init` goes to the rate
register 0x20 of the accelerometer and carries the byte `(odr << 4) | 0x07`,
which fits eight bits: its high nibble is `odr`, its low nibble is 0x7, so
the three axis bits are set and the low-power bit 3 is clear. -/
theorem init_rate_byte_nibbles (replies : Nat → Reply) (config : lsm303dlhc_config_t)
    (slot : lsm303dlhc_handle_t) :
    (lsm303dlhc_init (I2cBus.fresh replies) true (some config) (some slot)).bus.log[0]? =
      some (Txn.write config.i2c_port 0x19 [0x20, (config.accel_odr.val <<< 4) ||| 0x07]) ∧
    ctrl1_a config = (config.accel_odr.val <<< 4) ||| 0x07 ∧
    (config.accel_odr.val <<< 4) ||| 0x07 < 256 ∧
    ((config.accel_odr.val <<< 4) ||| 0x07) >>> 4 = config.accel_odr.val ∧
    ((config.accel_odr.val <<< 4) ||| 0x07) &&& 0x0F = 0x07 ∧
    ((config.accel_odr.val <<< 4) ||| 0x07).testBit 3 = false ∧
    [lsm303dlhc_accel_odr_t.LSM303DLHC_ACCEL_ODR_OFF.val,
     lsm303dlhc_accel_odr_t.LSM303DLHC_ACCEL_ODR_1HZ.val,
     lsm303dlhc_accel_odr_t.LSM303DLHC_ACCEL_ODR_10HZ.val,
     lsm303dlhc_accel_odr_t.LSM303DLHC_ACCEL_ODR_25HZ.val,
     lsm303dlhc_accel_odr_t.LSM303DLHC_ACCEL_ODR_50HZ.val,
     lsm303dlhc_accel_odr_t.LSM303DLHC_ACCEL_ODR_100HZ.val,
     lsm303dlhc_accel_odr_t.LSM303DLHC_ACCEL_ODR_200HZ.val,
     lsm303dlhc_accel_odr_t.LSM303DLHC_ACCEL_ODR_400HZ.val,
     lsm303dlhc_accel_odr_t.LSM303DLHC_ACCEL_ODR_1344HZ.val] = [0, 1, 2, 3, 4, 5, 6, 7, 9] := by
  refine ⟨?_, ctrl1_a_eq config, ?_, ?_, ?_, ?_, by decide⟩
  · simp only [lsm303dlhc_init, write_reg, i2c_master_write_to_device, I2cBus.fresh,
      ← ctrl1_a_eq, lsm303dlhc_init_err, LSM303DLHC_ACCEL_ADDR, LSM303_CTRL_REG1_A]
    simp
    split_ifs <;> simp
  all_goals
    rcases config with ⟨port, fs, odr, modr, gain⟩
    cases odr <;> simp only [lsm303dlhc_accel_odr_t.val] <;> decide

/-- C8: `lsm303dlhc_init` called with a null configuration reference returns
invalid-argument and issues no bus transaction, whatever the handle slot
argument, the state of the bus and the state of the allocator are; it
allocates nothing and leaves the handle slot as it was. -/
theorem init_null_config (bus : I2cBus) (calloc_ok : Bool)
    (ret_handle : Option lsm303dlhc_handle_t) :
    (lsm303dlhc_init bus calloc_ok none ret_handle).ret = ESP_ERR_INVALID_ARG ∧
    (lsm303dlhc_init bus calloc_ok none ret_handle).bus.log = bus.log ∧
    (lsm303dlhc_init (I2cBus.fresh bus.replies) calloc_ok none ret_handle).bus.log = [] ∧
    (lsm303dlhc_init bus calloc_ok none ret_handle).allocated = false ∧
    (lsm303dlhc_init bus calloc_ok none ret_handle).ret_handle = ret_handle := by
  cases ret_handle <;> simp [lsm303dlhc_init, I2cBus.fresh]

/-- C9: for every k in 1..5 and every bus error e, if the first k-1 writes
of `lsm303dlhc_init` succeed and the k-th fails with e, then the call returns
exactly e, has issued exactly the first k of its five writes and none of the
remaining ones, has freed the device record it allocated, and has left the
handle slot of the caller holding what it held before. -/
theorem init_write_failure (replies : Nat → Reply) (config : lsm303dlhc_config_t)
    (slot : lsm303dlhc_handle_t) (k : Nat) (e : esp_err_t)
    (hk1 : 1 ≤ k) (hk5 : k ≤ 5) (he : e ≠ ESP_OK)
    (hpre : ∀ n, n < k - 1 → (replies n).err = ESP_OK)
    (hfail : (replies (k - 1)).err = e) :
    (lsm303dlhc_init (I2cBus.fresh replies) true (some config) (some slot)).ret = e ∧
    (lsm303dlhc_init (I2cBus.fresh replies) true (some config) (some slot)).bus.log =
      List.take k
        [ Txn.write config.i2c_port 0x19 [0x20, (config.accel_odr.val <<< 4) ||| 0x07],
          Txn.write config.i2c_port 0x19 [0x23, 0x88 ||| (config.accel_fs.val <<< 4)],
          Txn.write config.i2c_port 0x1E [0x00, config.mag_odr.val <<< 2],
          Txn.write config.i2c_port 0x1E [0x01, config.mag_gain.val <<< 5],
          Txn.write config.i2c_port 0x1E [0x02, 0x00] ] ∧
    (lsm303dlhc_init (I2cBus.fresh replies) true (some config) (some slot)).bus.log.length = k ∧
    (lsm303dlhc_init (I2cBus.fresh replies) true (some config) (some slot)).allocated = true ∧
    (lsm303dlhc_init (I2cBus.fresh replies) true (some config) (some slot)).freed = true ∧
    (lsm303dlhc_init (I2cBus.fresh replies) true (some config) (some slot)).ret_handle =
      some slot := by
  have h5 : k = 1 ∨ k = 2 ∨ k = 3 ∨ k = 4 ∨ k = 5 := by omega
  have h0 := hpre 0
  have h1 := hpre 1
  have h2 := hpre 2
  have h3 := hpre 3
  rcases h5 with rfl | rfl | rfl | rfl | rfl <;>
  simp at h0 h1 h2 h3 hfail <;>
  simp [lsm303dlhc_init, write_reg, i2c_master_write_to_device, I2cBus.fresh,
    lsm303dlhc_init_err, he, hfail, h0, h1, h2, h3,
    ← ctrl1_a_eq, ← ctrl4_a_eq, ← cra_m_eq, ← crb_m_eq,
    LSM303DLHC_ACCEL_ADDR, LSM303DLHC_MAG_ADDR, LSM303_CTRL_REG1_A, LSM303_CTRL_REG4_A,
    LSM303_CRA_REG_M, LSM303_CRB_REG_M, LSM303_MR_REG_M]

/-- C9 at a concrete input: the third write fails with -1 on the
configuration of the example application, the slot holding a null handle. -/
theorem init_write_failure_witness :
    (1 ≤ 3 ∧ 3 ≤ 5 ∧ (-1 : esp_err_t) ≠ ESP_OK) ∧
    (lsm303dlhc_init (I2cBus.fresh (bus_fail_at 2 (-1))) true (some app_config)
      (some none)).ret = -1 ∧
    (lsm303dlhc_init (I2cBus.fresh (bus_fail_at 2 (-1))) true (some app_config)
      (some none)).bus.log.length = 3 ∧
    (lsm303dlhc_init (I2cBus.fresh (bus_fail_at 2 (-1))) true (some app_config)
      (some none)).freed = true ∧
    (lsm303dlhc_init (I2cBus.fresh (bus_fail_at 2 (-1))) true (some app_config)
      (some none)).ret_handle = some none :=
  have h := init_write_failure (bus_fail_at 2 (-1)) app_config none 3 (-1)
    (by decide) (by decide) (by decide)
    (fun n hn => by
      have hne : n ≠ 2 := by omega
      simp [bus_fail_at, hne])
    (by simp [bus_fail_at])
  ⟨⟨by decide, by decide, by decide⟩, h.1, h.2.2.1, h.2.2.2.2.1, h.2.2.2.2.2⟩

/-! ## Interrupt event generators -/

/-- C6: for every event-generator configuration, whatever its threshold t
and duration d are, `lsm303dlhc_config_int1_event` and
`lsm303dlhc_config_int2_event` first write `t & 0x7F` to the threshold
register (0x32, 0x36) and, exactly when that write succeeded, next write
`d & 0x7F` to the duration register (0x33, 0x37); both written values are
below 128; the returned status is always the status of the last write
issued, so the driver rejects no value of t or d; with t = d = 200 the byte
written to both registers is 0x48. -/
theorem event_threshold_duration_masked (replies : Nat → Reply) (dev : lsm303dlhc_dev_t)
    (conf : lsm303dlhc_int_event_conf_t) :
    (lsm303dlhc_config_int1_event (I2cBus.fresh replies) (some dev) (some conf)).2.log[0]? =
      some (Txn.write dev.port 0x19 [0x32, conf.threshold &&& 0x7F]) ∧
    (lsm303dlhc_config_int1_event (I2cBus.fresh replies) (some dev) (some conf)).2.log[1]? =
      (if (replies 0).err = ESP_OK then
        some (Txn.write dev.port 0x19 [0x33, conf.duration &&& 0x7F])
       else none) ∧
    (lsm303dlhc_config_int2_event (I2cBus.fresh replies) (some dev) (some conf)).2.log[0]? =
      some (Txn.write dev.port 0x19 [0x36, conf.threshold &&& 0x7F]) ∧
    (lsm303dlhc_config_int2_event (I2cBus.fresh replies) (some dev) (some conf)).2.log[1]? =
      (if (replies 0).err = ESP_OK then
        some (Txn.write dev.port 0x19 [0x37, conf.duration &&& 0x7F])
       else none) ∧
    conf.threshold &&& 0x7F < 128 ∧ conf.duration &&& 0x7F < 128 ∧
    (lsm303dlhc_config_int1_event (I2cBus.fresh replies) (some dev) (some conf)).1 =
      (if (replies 0).err = ESP_OK then
        (if (replies 1).err = ESP_OK then (replies 2).err else (replies 1).err)
       else (replies 0).err) ∧
    (lsm303dlhc_config_int2_event (I2cBus.fresh replies) (some dev) (some conf)).1 =
      (if (replies 0).err = ESP_OK then
        (if (replies 1).err = ESP_OK then (replies 2).err else (replies 1).err)
       else (replies 0).err) ∧
    (lsm303dlhc_config_int1_event (I2cBus.fresh (bus_ok [])) (some dev)
        (some { conf with threshold := 200, duration := 200 })).2.log =
      [ Txn.write dev.port 0x19 [0x32, 0x48], Txn.write dev.port 0x19 [0x33, 0x48],
        Txn.write dev.port 0x19 [0x30, cfg_val conf] ] ∧
    (lsm303dlhc_config_int2_event (I2cBus.fresh (bus_ok [])) (some dev)
        (some { conf with threshold := 200, duration := 200 })).2.log =
      [ Txn.write dev.port 0x19 [0x36, 0x48], Txn.write dev.port 0x19 [0x37, 0x48],
        Txn.write dev.port 0x19 [0x34, cfg_val conf] ] := by
  refine ⟨?_, ?_, ?_, ?_, mask7_lt _, mask7_lt _, ?_, ?_, ?_, ?_⟩
  iterate 6
    simp only [lsm303dlhc_config_int1_event, lsm303dlhc_config_int2_event,
      config_int_event_gen, write_reg, i2c_master_write_to_device, I2cBus.fresh, mask7_u8,
      LSM303DLHC_ACCEL_ADDR, LSM303_INT1_CFG_A, LSM303_INT1_THS_A, LSM303_INT1_DURATION_A,
      LSM303_INT2_CFG_A, LSM303_INT2_THS_A, LSM303_INT2_DURATION_A]
    simp
    split_ifs <;> simp
  all_goals
    simp [lsm303dlhc_config_int1_event, lsm303dlhc_config_int2_event,
      config_int_event_gen, write_reg, i2c_master_write_to_device, I2cBus.fresh, bus_ok,
      cfg_val, LSM303DLHC_ACCEL_ADDR, LSM303_INT1_CFG_A, LSM303_INT1_THS_A,
      LSM303_INT1_DURATION_A, LSM303_INT2_CFG_A, LSM303_INT2_THS_A, LSM303_INT2_DURATION_A]
    decide

/-- C7: for both pin generators and every configuration, when the three
writes succeed the bus log of the event-generator configuration operation is
exactly three writes to the accelerometer address 0x19, in the order
threshold register, duration register, condition-config register: 0x32,
0x33, 0x30 for INT1 and 0x36, 0x37, 0x34 for INT2; the condition-config
write is the last one, and the operation returns success. -/
theorem event_write_order (replies : Nat → Reply) (dev : lsm303dlhc_dev_t)
    (conf : lsm303dlhc_int_event_conf_t)
    (hok : ∀ n, n < 3 → (replies n).err = ESP_OK) :
    (lsm303dlhc_config_int1_event (I2cBus.fresh replies) (some dev) (some conf)).2.log =
      [ Txn.write dev.port 0x19 [0x32, conf.threshold &&& 0x7F],
        Txn.write dev.port 0x19 [0x33, conf.duration &&& 0x7F],
        Txn.write dev.port 0x19 [0x30, cfg_val conf] ] ∧
    (lsm303dlhc_config_int2_event (I2cBus.fresh replies) (some dev) (some conf)).2.log =
      [ Txn.write dev.port 0x19 [0x36, conf.threshold &&& 0x7F],
        Txn.write dev.port 0x19 [0x37, conf.duration &&& 0x7F],
        Txn.write dev.port 0x19 [0x34, cfg_val conf] ] ∧
    (lsm303dlhc_config_int1_event (I2cBus.fresh replies) (some dev) (some conf)).1 = ESP_OK ∧
    (lsm303dlhc_config_int2_event (I2cBus.fresh replies) (some dev) (some conf)).1 = ESP_OK := by
  have h0 := hok 0 (by decide)
  have h1 := hok 1 (by decide)
  have h2 := hok 2 (by decide)
  simp [lsm303dlhc_config_int1_event, lsm303dlhc_config_int2_event, config_int_event_gen,
    write_reg, i2c_master_write_to_device, I2cBus.fresh, h0, h1, h2, mask7_u8,
    LSM303DLHC_ACCEL_ADDR, LSM303_INT1_CFG_A, LSM303_INT1_THS_A, LSM303_INT1_DURATION_A,
    LSM303_INT2_CFG_A, LSM303_INT2_THS_A, LSM303_INT2_DURATION_A]

/-- C7 at a concrete input: a configuration with threshold 16 and duration 4
on a bus that always succeeds. -/
theorem event_write_order_witness :
    (∀ n, n < 3 → (bus_ok [] n).err = ESP_OK) ∧
    (lsm303dlhc_config_int1_event (I2cBus.fresh (bus_ok [])) (some app_dev)
      (some { aoi := false, six_d := false, zhie := true, zlie := false, yhie := true,
              ylie := false, xhie := true, xlie := false,
              threshold := 16, duration := 4 })).2.log =
      [ Txn.write 0 0x19 [0x32, 16], Txn.write 0 0x19 [0x33, 4],
        Txn.write 0 0x19 [0x30, 0x2A] ] ∧
    (lsm303dlhc_config_int2_event (I2cBus.fresh (bus_ok [])) (some app_dev)
      (some { aoi := false, six_d := false, zhie := true, zlie := false, yhie := true,
              ylie := false, xhie := true, xlie := false,
              threshold := 16, duration := 4 })).2.log =
      [ Txn.write 0 0x19 [0x36, 16], Txn.write 0 0x19 [0x37, 4],
        Txn.write 0 0x19 [0x34, 0x2A] ] :=
  have h := event_write_order (bus_ok []) app_dev
    { aoi := false, six_d := false, zhie := true, zlie := false, yhie := true,
      ylie := false, xhie := true, xlie := false, threshold := 16, duration := 4 }
    (fun _ _ => rfl)
  ⟨fun _ _ => rfl, h.1, h.2.1⟩

/-! ## Interrupt pin routing -/

/-- C10: for every INT1 pin-routing flag set, `lsm303dlhc_config_int1_pin`
issues exactly one transaction, a write to register 0x22 at the
accelerometer address 0x19, and returns its status; the byte written has
bit 7 set iff `i1_click`, bit 6 iff `i1_aoi1`, bit 5 iff `i1_aoi2`, bit 4 iff
`i1_drdy1`, bit 3 iff `i1_drdy2`, bit 2 iff `i1_wtm`, bit 1 iff `i1_overrun`,
and its bit 0 is clear. -/
theorem int1_pin_one_write_bits (replies : Nat → Reply) (dev : lsm303dlhc_dev_t)
    (conf : lsm303dlhc_int1_pin_conf_t) :
    (lsm303dlhc_config_int1_pin (I2cBus.fresh replies) (some dev) (some conf)).2.log =
      [Txn.write dev.port 0x19 [0x22, int1_pin_reg_val conf]] ∧
    (lsm303dlhc_config_int1_pin (I2cBus.fresh replies) (some dev) (some conf)).1 =
      (replies 0).err ∧
    (int1_pin_reg_val conf).testBit 7 = conf.i1_click ∧
    (int1_pin_reg_val conf).testBit 6 = conf.i1_aoi1 ∧
    (int1_pin_reg_val conf).testBit 5 = conf.i1_aoi2 ∧
    (int1_pin_reg_val conf).testBit 4 = conf.i1_drdy1 ∧
    (int1_pin_reg_val conf).testBit 3 = conf.i1_drdy2 ∧
    (int1_pin_reg_val conf).testBit 2 = conf.i1_wtm ∧
    (int1_pin_reg_val conf).testBit 1 = conf.i1_overrun ∧
    (int1_pin_reg_val conf).testBit 0 = false ∧
    int1_pin_reg_val conf < 256 := by
  refine ⟨?_, ?_, ?_⟩
  · simp [lsm303dlhc_config_int1_pin, write_reg, i2c_master_write_to_device, I2cBus.fresh,
      LSM303DLHC_ACCEL_ADDR, LSM303_CTRL_REG3_A]
  · simp [lsm303dlhc_config_int1_pin, write_reg, i2c_master_write_to_device, I2cBus.fresh]
  · rcases conf with ⟨a, b, c, d, e, f, g⟩
    cases a <;> cases b <;> cases c <;> cases d <;> cases e <;> cases f <;> cases g <;> decide

/-- C11: for every INT2 pin-routing flag set, `lsm303dlhc_config_int2_pin`
issues exactly one transaction, a write to register 0x25 at the
accelerometer address 0x19, and returns its status; the byte written has
bit 7 set iff `i2_click`, bit 6 iff `i2_int1`, bit 5 iff `i2_int2`, bit 4 iff
`boot_i1`, bit 3 iff `p2_act`, bit 1 iff `h_lactive`, and its bits 0 and 2
are clear. -/
theorem int2_pin_one_write_bits (replies : Nat → Reply) (dev : lsm303dlhc_dev_t)
    (conf : lsm303dlhc_int2_pin_conf_t) :
    (lsm303dlhc_config_int2_pin (I2cBus.fresh replies) (some dev) (some conf)).2.log =
      [Txn.write dev.port 0x19 [0x25, int2_pin_reg_val conf]] ∧
    (lsm303dlhc_config_int2_pin (I2cBus.fresh replies) (some dev) (some conf)).1 =
      (replies 0).err ∧
    (int2_pin_reg_val conf).testBit 7 = conf.i2_click ∧
    (int2_pin_reg_val conf).testBit 6 = conf.i2_int1 ∧
    (int2_pin_reg_val conf).testBit 5 = conf.i2_int2 ∧
    (int2_pin_reg_val conf).testBit 4 = conf.boot_i1 ∧
    (int2_pin_reg_val conf).testBit 3 = conf.p2_act ∧
    (int2_pin_reg_val conf).testBit 1 = conf.h_lactive ∧
    (int2_pin_reg_val conf).testBit 0 = false ∧
    (int2_pin_reg_val conf).testBit 2 = false ∧
    int2_pin_reg_val conf < 256 := by
  refine ⟨?_, ?_, ?_⟩
  · simp [lsm303dlhc_config_int2_pin, write_reg, i2c_master_write_to_device, I2cBus.fresh,
      LSM303DLHC_ACCEL_ADDR, LSM303_CTRL_REG6_A]
  · simp [lsm303dlhc_config_int2_pin, write_reg, i2c_master_write_to_device, I2cBus.fresh]
  · rcases conf with ⟨a, b, c, d, e, f⟩
    cases a <;> cases b <;> cases c <;> cases d <;> cases e <;> cases f <;> decide

/-! ## Condition-config byte -/

/-- The condition-config byte is built from the eight flags alone. -/
theorem cfg_val_flags_only (a b c d e f g h : Bool) (t u : Nat) :
    cfg_val { aoi := a, six_d := b, zhie := c, zlie := d, yhie := e, ylie := f,
              xhie := g, xlie := h, threshold := t, duration := u } =
    cfg_val { aoi := a, six_d := b, zhie := c, zlie := d, yhie := e, ylie := f,
              xhie := g, xlie := h, threshold := 0, duration := 0 } := rfl

/-- The bits of the condition-config byte are the eight flags, and the byte
fits eight bits. -/
theorem cfg_val_bits (conf : lsm303dlhc_int_event_conf_t) :
    (cfg_val conf).testBit 7 = conf.aoi ∧
    (cfg_val conf).testBit 6 = conf.six_d ∧
    (cfg_val conf).testBit 5 = conf.zhie ∧
    (cfg_val conf).testBit 4 = conf.zlie ∧
    (cfg_val conf).testBit 3 = conf.yhie ∧
    (cfg_val conf).testBit 2 = conf.ylie ∧
    (cfg_val conf).testBit 1 = conf.xhie ∧
    (cfg_val conf).testBit 0 = conf.xlie ∧
    cfg_val conf < 256 := by
  rcases conf with ⟨a, b, c, d, e, f, g, h, t, u⟩
  rw [cfg_val_flags_only a b c d e f g h t u]
  show (cfg_val ⟨a, b, c, d, e, f, g, h, 0, 0⟩).testBit 7 = a ∧
    (cfg_val ⟨a, b, c, d, e, f, g, h, 0, 0⟩).testBit 6 = b ∧
    (cfg_val ⟨a, b, c, d, e, f, g, h, 0, 0⟩).testBit 5 = c ∧
    (cfg_val ⟨a, b, c, d, e, f, g, h, 0, 0⟩).testBit 4 = d ∧
    (cfg_val ⟨a, b, c, d, e, f, g, h, 0, 0⟩).testBit 3 = e ∧
    (cfg_val ⟨a, b, c, d, e, f, g, h, 0, 0⟩).testBit 2 = f ∧
    (cfg_val ⟨a, b, c, d, e, f, g, h, 0, 0⟩).testBit 1 = g ∧
    (cfg_val ⟨a, b, c, d, e, f, g, h, 0, 0⟩).testBit 0 = h ∧
    cfg_val ⟨a, b, c, d, e, f, g, h, 0, 0⟩ < 256
  cases a <;> cases b <;> cases c <;> cases d <;> cases e <;> cases f <;> cases g <;>
    cases h <;> decide

/-- Every byte is the condition-config byte of the flags read off its bits. -/
theorem cfg_val_of_bits (b t u : Nat) (hb : b < 256) :
    cfg_val { aoi := b.testBit 7, six_d := b.testBit 6, zhie := b.testBit 5,
              zlie := b.testBit 4, yhie := b.testBit 3, ylie := b.testBit 2,
              xhie := b.testBit 1, xlie := b.testBit 0,
              threshold := t, duration := u } = b := by
  rw [cfg_val_flags_only]
  interval_cases b <;> decide

/-- C12: for every event-generator configuration, the byte that
`lsm303dlhc_config_int1_event` and `lsm303dlhc_config_int2_event` write to the
condition-config register (0x30, 0x34), as the third write and exactly when
the two earlier writes succeeded, has bit 7 set iff `aoi`, bit 6 iff `six_d`,
bit 5 iff `zhie`, bit 4 iff `zlie`, bit 3 iff `yhie`, bit 2 iff `ylie`, bit 1
iff `xhie`, bit 0 iff `xlie`; it fits eight bits and does not depend on
threshold and duration; two configurations with the same byte have the same
eight flags, and every byte value 0..255 is the byte of some flag
combination, hence of exactly one. -/
theorem cfg_byte_flags_bijective (replies : Nat → Reply) (dev : lsm303dlhc_dev_t)
    (conf : lsm303dlhc_int_event_conf_t) :
    (lsm303dlhc_config_int1_event (I2cBus.fresh replies) (some dev) (some conf)).2.log[2]? =
      (if (replies 0).err = ESP_OK ∧ (replies 1).err = ESP_OK then
        some (Txn.write dev.port 0x19 [0x30, cfg_val conf])
       else none) ∧
    (lsm303dlhc_config_int2_event (I2cBus.fresh replies) (some dev) (some conf)).2.log[2]? =
      (if (replies 0).err = ESP_OK ∧ (replies 1).err = ESP_OK then
        some (Txn.write dev.port 0x19 [0x34, cfg_val conf])
       else none) ∧
    ((cfg_val conf).testBit 7 = conf.aoi ∧
     (cfg_val conf).testBit 6 = conf.six_d ∧
     (cfg_val conf).testBit 5 = conf.zhie ∧
     (cfg_val conf).testBit 4 = conf.zlie ∧
     (cfg_val conf).testBit 3 = conf.yhie ∧
     (cfg_val conf).testBit 2 = conf.ylie ∧
     (cfg_val conf).testBit 1 = conf.xhie ∧
     (cfg_val conf).testBit 0 = conf.xlie ∧
     cfg_val conf < 256) ∧
    (∀ t u : Nat, cfg_val { conf with threshold := t, duration := u } = cfg_val conf) ∧
    (∀ other : lsm303dlhc_int_event_conf_t, cfg_val other = cfg_val conf →
      other.aoi = conf.aoi ∧ other.six_d = conf.six_d ∧ other.zhie = conf.zhie ∧
      other.zlie = conf.zlie ∧ other.yhie = conf.yhie ∧ other.ylie = conf.ylie ∧
      other.xhie = conf.xhie ∧ other.xlie = conf.xlie) ∧
    (∀ b : Nat, b < 256 → ∃ c : lsm303dlhc_int_event_conf_t,
      c.threshold = conf.threshold ∧ c.duration = conf.duration ∧ cfg_val c = b) := by
  refine ⟨?_, ?_, cfg_val_bits conf, fun t u => rfl, ?_, ?_⟩
  · simp only [lsm303dlhc_config_int1_event, config_int_event_gen, write_reg,
      i2c_master_write_to_device, I2cBus.fresh, mask7_u8, LSM303DLHC_ACCEL_ADDR,
      LSM303_INT1_CFG_A, LSM303_INT1_THS_A, LSM303_INT1_DURATION_A]
    simp
    split_ifs <;> simp_all
  · simp only [lsm303dlhc_config_int2_event, config_int_event_gen, write_reg,
      i2c_master_write_to_device, I2cBus.fresh, mask7_u8, LSM303DLHC_ACCEL_ADDR,
      LSM303_INT2_CFG_A, LSM303_INT2_THS_A, LSM303_INT2_DURATION_A]
    simp
    split_ifs <;> simp_all
  · intro other h
    have ho := cfg_val_bits other
    have hc := cfg_val_bits conf
    rw [h] at ho
    obtain ⟨o7, o6, o5, o4, o3, o2, o1, o0, _⟩ := ho
    obtain ⟨c7, c6, c5, c4, c3, c2, c1, c0, _⟩ := hc
    exact ⟨o7.symm.trans c7, o6.symm.trans c6, o5.symm.trans c5, o4.symm.trans c4,
      o3.symm.trans c3, o2.symm.trans c2, o1.symm.trans c1, o0.symm.trans c0⟩
  · intro b hb
    exact ⟨{ aoi := b.testBit 7, six_d := b.testBit 6, zhie := b.testBit 5,
             zlie := b.testBit 4, yhie := b.testBit 3, ylie := b.testBit 2,
             xhie := b.testBit 1, xlie := b.testBit 0,
             threshold := conf.threshold, duration := conf.duration },
      rfl, rfl, cfg_val_of_bits b conf.threshold conf.duration hb⟩

/-- C12 at a concrete input: the flags zhie, yhie, xhie give the byte 0x2A,
written third on a bus that always succeeds, and the byte 0xAB is the byte
of some flag combination. -/
theorem cfg_byte_flags_bijective_witness :
    (lsm303dlhc_config_int1_event (I2cBus.fresh (bus_ok [])) (some app_dev)
      (some { aoi := false, six_d := false, zhie := true, zlie := false, yhie := true,
              ylie := false, xhie := true, xlie := false,
              threshold := 16, duration := 4 })).2.log[2]? =
      (if (bus_ok [] 0).err = ESP_OK ∧ (bus_ok [] 1).err = ESP_OK then
        some (Txn.write app_dev.port 0x19 [0x30,
          cfg_val { aoi := false, six_d := false, zhie := true, zlie := false, yhie := true,
                    ylie := false, xhie := true, xlie := false,
                    threshold := 16, duration := 4 }])
       else none) ∧
    (∃ c : lsm303dlhc_int_event_conf_t, c.threshold = 16 ∧ c.duration = 4 ∧ cfg_val c = 0xAB) :=
  have h := cfg_byte_flags_bijective (bus_ok []) app_dev
    { aoi := false, six_d := false, zhie := true, zlie := false, yhie := true,
      ylie := false, xhie := true, xlie := false, threshold := 16, duration := 4 }
  ⟨h.1, h.2.2.2.2.2 0xAB (by decide)⟩

/-- C13: for both event-generator configuration operations, a call with an
absent handle or an absent configuration returns invalid-argument and leaves
the bus untouched; with both present the threshold write is issued, and if
it fails its status is returned and nothing more is written; else the
duration write is issued, and if it fails its status is returned and the
condition-config register is not written; else the condition-config write
is issued and its status is returned. -/
theorem event_config_error_paths (bus : I2cBus) (replies : Nat → Reply)
    (handle : lsm303dlhc_handle_t) (oconf : Option lsm303dlhc_int_event_conf_t)
    (dev : lsm303dlhc_dev_t) (conf : lsm303dlhc_int_event_conf_t) :
    lsm303dlhc_config_int1_event bus none oconf = (ESP_ERR_INVALID_ARG, bus) ∧
    lsm303dlhc_config_int1_event bus handle none = (ESP_ERR_INVALID_ARG, bus) ∧
    lsm303dlhc_config_int2_event bus none oconf = (ESP_ERR_INVALID_ARG, bus) ∧
    lsm303dlhc_config_int2_event bus handle none = (ESP_ERR_INVALID_ARG, bus) ∧
    (lsm303dlhc_config_int1_event (I2cBus.fresh replies) (some dev) (some conf)).1 =
      (if (replies 0).err = ESP_OK then
        (if (replies 1).err = ESP_OK then (replies 2).err else (replies 1).err)
       else (replies 0).err) ∧
    (lsm303dlhc_config_int1_event (I2cBus.fresh replies) (some dev) (some conf)).2.log =
      (if (replies 0).err = ESP_OK then
        (if (replies 1).err = ESP_OK then
          [ Txn.write dev.port 0x19 [0x32, conf.threshold &&& 0x7F],
            Txn.write dev.port 0x19 [0x33, conf.duration &&& 0x7F],
            Txn.write dev.port 0x19 [0x30, cfg_val conf] ]
         else
          [ Txn.write dev.port 0x19 [0x32, conf.threshold &&& 0x7F],
            Txn.write dev.port 0x19 [0x33, conf.duration &&& 0x7F] ])
       else [ Txn.write dev.port 0x19 [0x32, conf.threshold &&& 0x7F] ]) ∧
    (lsm303dlhc_config_int2_event (I2cBus.fresh replies) (some dev) (some conf)).1 =
      (if (replies 0).err = ESP_OK then
        (if (replies 1).err = ESP_OK then (replies 2).err else (replies 1).err)
       else (replies 0).err) ∧
    (lsm303dlhc_config_int2_event (I2cBus.fresh replies) (some dev) (some conf)).2.log =
      (if (replies 0).err = ESP_OK then
        (if (replies 1).err = ESP_OK then
          [ Txn.write dev.port 0x19 [0x36, conf.threshold &&& 0x7F],
            Txn.write dev.port 0x19 [0x37, conf.duration &&& 0x7F],
            Txn.write dev.port 0x19 [0x34, cfg_val conf] ]
         else
          [ Txn.write dev.port 0x19 [0x36, conf.threshold &&& 0x7F],
            Txn.write dev.port 0x19 [0x37, conf.duration &&& 0x7F] ])
       else [ Txn.write dev.port 0x19 [0x36, conf.threshold &&& 0x7F] ]) := by
  refine ⟨?_, ?_, ?_, ?_, ?_, ?_, ?_, ?_⟩
  · simp [lsm303dlhc_config_int1_event, config_int_event_gen]
  · cases handle <;> simp [lsm303dlhc_config_int1_event, config_int_event_gen]
  · simp [lsm303dlhc_config_int2_event, config_int_event_gen]
  · cases handle <;> simp [lsm303dlhc_config_int2_event, config_int_event_gen]
  all_goals
    simp only [lsm303dlhc_config_int1_event, lsm303dlhc_config_int2_event,
      config_int_event_gen, write_reg, i2c_master_write_to_device, I2cBus.fresh, mask7_u8,
      LSM303DLHC_ACCEL_ADDR, LSM303_INT1_CFG_A, LSM303_INT1_THS_A, LSM303_INT1_DURATION_A,
      LSM303_INT2_CFG_A, LSM303_INT2_THS_A, LSM303_INT2_DURATION_A]
    simp
    split_ifs <;> simp

/-! ## Release -/

/-- C14: `lsm303dlhc_deinit` returns success for every handle, the null
handle included; on the null handle it frees nothing, on any other it frees
the record; in every case it leaves the bus untouched, so it issues no bus
transaction. -/
theorem deinit_ok_no_bus (bus : I2cBus) (handle : lsm303dlhc_handle_t)
    (dev : lsm303dlhc_dev_t) :
    (lsm303dlhc_deinit bus handle).ret = ESP_OK ∧
    (lsm303dlhc_deinit bus handle).bus = bus ∧
    (lsm303dlhc_deinit bus handle).bus.log = bus.log ∧
    (lsm303dlhc_deinit bus none).freed = false ∧
    (lsm303dlhc_deinit bus (some dev)).freed = true := by
  cases handle <;> simp [lsm303dlhc_deinit]

/-! ## Interrupt source query -/

/-- C15: `lsm303dlhc_get_int1_src` and `lsm303dlhc_get_int2_src` return
invalid-argument, leaving the bus and the output untouched, when the handle
or the output reference is absent; otherwise, whatever the bus answers, each
issues exactly one combined write-then-read transaction at the accelerometer
address 0x19, writing the register address 0x31 for INT1 and 0x35 for INT2
and reading one byte, and returns the status of that transaction unchanged,
success or bus error alike; the output then holds the byte the bus
delivered, or its old value when the bus delivered nothing. -/
theorem get_int_src_one_read (bus : I2cBus) (replies : Nat → Reply)
    (handle : lsm303dlhc_handle_t) (osrc : Option Nat) (dev : lsm303dlhc_dev_t)
    (old : Nat) :
    lsm303dlhc_get_int1_src bus none osrc =
      { ret := ESP_ERR_INVALID_ARG, bus := bus, src := osrc } ∧
    lsm303dlhc_get_int1_src bus handle none =
      { ret := ESP_ERR_INVALID_ARG, bus := bus, src := none } ∧
    lsm303dlhc_get_int2_src bus none osrc =
      { ret := ESP_ERR_INVALID_ARG, bus := bus, src := osrc } ∧
    lsm303dlhc_get_int2_src bus handle none =
      { ret := ESP_ERR_INVALID_ARG, bus := bus, src := none } ∧
    (lsm303dlhc_get_int1_src (I2cBus.fresh replies) (some dev) (some old)).bus.log =
      [Txn.write_read dev.port 0x19 [0x31] 1] ∧
    (lsm303dlhc_get_int1_src (I2cBus.fresh replies) (some dev) (some old)).ret =
      (replies 0).err ∧
    (lsm303dlhc_get_int2_src (I2cBus.fresh replies) (some dev) (some old)).bus.log =
      [Txn.write_read dev.port 0x19 [0x35] 1] ∧
    (lsm303dlhc_get_int2_src (I2cBus.fresh replies) (some dev) (some old)).ret =
      (replies 0).err ∧
    (∀ b rest, (replies 0).rx = b :: rest →
      (lsm303dlhc_get_int1_src (I2cBus.fresh replies) (some dev) (some old)).src =
        some (u8 b) ∧
      (lsm303dlhc_get_int2_src (I2cBus.fresh replies) (some dev) (some old)).src =
        some (u8 b)) ∧
    ((replies 0).rx = [] →
      (lsm303dlhc_get_int1_src (I2cBus.fresh replies) (some dev) (some old)).src =
        some old ∧
      (lsm303dlhc_get_int2_src (I2cBus.fresh replies) (some dev) (some old)).src =
        some old) := by
  refine ⟨?_, ?_, ?_, ?_, ?_, ?_, ?_, ?_, ?_, ?_⟩
  · simp [lsm303dlhc_get_int1_src]
  · cases handle <;> simp [lsm303dlhc_get_int1_src]
  · simp [lsm303dlhc_get_int2_src]
  · cases handle <;> simp [lsm303dlhc_get_int2_src]
  · simp [lsm303dlhc_get_int1_src, read_reg, i2c_master_write_read_device, I2cBus.fresh,
      LSM303DLHC_ACCEL_ADDR, LSM303_INT1_SRC_A]
  · simp [lsm303dlhc_get_int1_src, read_reg, i2c_master_write_read_device, I2cBus.fresh]
  · simp [lsm303dlhc_get_int2_src, read_reg, i2c_master_write_read_device, I2cBus.fresh,
      LSM303DLHC_ACCEL_ADDR, LSM303_INT2_SRC_A]
  · simp [lsm303dlhc_get_int2_src, read_reg, i2c_master_write_read_device, I2cBus.fresh]
  · intro b rest hrx
    simp [lsm303dlhc_get_int1_src, lsm303dlhc_get_int2_src, read_reg,
      i2c_master_write_read_device, I2cBus.fresh, hrx, fill_rbuf]
  · intro hrx
    simp [lsm303dlhc_get_int1_src, lsm303dlhc_get_int2_src, read_reg,
      i2c_master_write_read_device, I2cBus.fresh, hrx, fill_rbuf]

/-- C15 at two concrete inputs: on a bus that succeeds and delivers the byte
0x6A the call returns success after one transaction with 0x6A stored; on a
bus whose transaction fails with -1 and delivers nothing the call returns
-1 after one transaction with the output still holding 0x55. -/
theorem get_int_src_one_read_witness :
    ((lsm303dlhc_get_int1_src (I2cBus.fresh (bus_ok [0x6A])) (some app_dev) (some 0)).bus.log =
        [Txn.write_read app_dev.port 0x19 [0x31] 1] ∧
     (lsm303dlhc_get_int1_src (I2cBus.fresh (bus_ok [0x6A])) (some app_dev) (some 0)).ret =
        (bus_ok [0x6A] 0).err ∧
     (bus_ok [0x6A] 0).err = ESP_OK ∧
     (lsm303dlhc_get_int1_src (I2cBus.fresh (bus_ok [0x6A])) (some app_dev) (some 0)).src =
        some (u8 0x6A) ∧
     u8 0x6A = 0x6A) ∧
    ((lsm303dlhc_get_int2_src (I2cBus.fresh (bus_fail_at 0 (-1))) (some app_dev)
        (some 0x55)).bus.log = [Txn.write_read app_dev.port 0x19 [0x35] 1] ∧
     (lsm303dlhc_get_int2_src (I2cBus.fresh (bus_fail_at 0 (-1))) (some app_dev)
        (some 0x55)).ret = (bus_fail_at 0 (-1) 0).err ∧
     (bus_fail_at 0 (-1) 0).err = -1 ∧
     (lsm303dlhc_get_int2_src (I2cBus.fresh (bus_fail_at 0 (-1))) (some app_dev)
        (some 0x55)).src = some 0x55) :=
  have hs := get_int_src_one_read (I2cBus.fresh (bus_ok [])) (bus_ok [0x6A]) none none
    app_dev 0
  have hf := get_int_src_one_read (I2cBus.fresh (bus_ok [])) (bus_fail_at 0 (-1)) none none
    app_dev 0x55
  ⟨⟨hs.2.2.2.2.1, hs.2.2.2.2.2.1, rfl, (hs.2.2.2.2.2.2.2.2.1 0x6A [] rfl).1, by decide⟩,
   ⟨hf.2.2.2.2.2.2.1, hf.2.2.2.2.2.2.2.1, by decide, (hf.2.2.2.2.2.2.2.2.2 rfl).2⟩⟩

/-! ## Sample reads: transactions and error paths -/

/-- C16: `lsm303dlhc_read_accel` and `lsm303dlhc_read_mag` return
invalid-argument, leaving the bus and the output untouched, when the handle
or the output reference is absent; with both present they issue exactly one
transaction and return its status, so a read failing with e returns exactly
e and is not retried. -/
theorem read_error_paths (bus : I2cBus) (replies : Nat → Reply)
    (handle : lsm303dlhc_handle_t) (odata : Option lsm303dlhc_raw_data_t)
    (dev : lsm303dlhc_dev_t) (old : lsm303dlhc_raw_data_t) :
    lsm303dlhc_read_accel bus none odata =
      { ret := ESP_ERR_INVALID_ARG, bus := bus, data := odata } ∧
    lsm303dlhc_read_accel bus handle none =
      { ret := ESP_ERR_INVALID_ARG, bus := bus, data := none } ∧
    lsm303dlhc_read_mag bus none odata =
      { ret := ESP_ERR_INVALID_ARG, bus := bus, data := odata } ∧
    lsm303dlhc_read_mag bus handle none =
      { ret := ESP_ERR_INVALID_ARG, bus := bus, data := none } ∧
    (lsm303dlhc_read_accel (I2cBus.fresh replies) (some dev) (some old)).ret =
      (replies 0).err ∧
    (lsm303dlhc_read_accel (I2cBus.fresh replies) (some dev) (some old)).bus.log.length = 1 ∧
    (lsm303dlhc_read_mag (I2cBus.fresh replies) (some dev) (some old)).ret =
      (replies 0).err ∧
    (lsm303dlhc_read_mag (I2cBus.fresh replies) (some dev) (some old)).bus.log.length = 1 := by
  refine ⟨?_, ?_, ?_, ?_, ?_, ?_, ?_, ?_⟩
  · simp [lsm303dlhc_read_accel]
  · cases handle <;> simp [lsm303dlhc_read_accel]
  · simp [lsm303dlhc_read_mag]
  · cases handle <;> simp [lsm303dlhc_read_mag]
  all_goals
    simp only [lsm303dlhc_read_accel, lsm303dlhc_read_mag, i2c_master_write_read_device,
      I2cBus.fresh]
    simp
    split_ifs <;> simp_all

/-- C18: with a present handle and output, `lsm303dlhc_read_accel` issues
exactly one transaction, a combined write-then-read at address 0x19 whose
one written byte is 0xA8, the first output register 0x28 with the top bit
set, and which requests 6 bytes; `lsm303dlhc_read_mag` issues exactly one
transaction, a combined write-then-read at address 0x1E whose one written
byte is 0x03, top bit clear, and which requests 6 bytes. -/
theorem read_single_transaction (replies : Nat → Reply) (dev : lsm303dlhc_dev_t)
    (old : lsm303dlhc_raw_data_t) :
    (lsm303dlhc_read_accel (I2cBus.fresh replies) (some dev) (some old)).bus.log =
      [Txn.write_read dev.port 0x19 [0xA8] 6] ∧
    (lsm303dlhc_read_mag (I2cBus.fresh replies) (some dev) (some old)).bus.log =
      [Txn.write_read dev.port 0x1E [0x03] 6] ∧
    u8 (LSM303_OUT_X_L_A ||| ACCEL_AUTO_INCR) = 0xA8 ∧
    LSM303_OUT_X_L_A = 0x28 ∧
    (0xA8 : Nat) &&& 0x7F = 0x28 ∧
    (0xA8 : Nat).testBit 7 = true ∧
    LSM303_OUT_X_H_M = 0x03 ∧
    (0x03 : Nat).testBit 7 = false := by
  refine ⟨?_, ?_, by decide, rfl, by decide, by decide, rfl, by decide⟩
  all_goals
    simp only [lsm303dlhc_read_accel, lsm303dlhc_read_mag, i2c_master_write_read_device,
      I2cBus.fresh, LSM303DLHC_ACCEL_ADDR, LSM303DLHC_MAG_ADDR, LSM303_OUT_X_L_A,
      LSM303_OUT_X_H_M, ACCEL_AUTO_INCR, u8]
    simp
    split_ifs <;> simp

/-- C20: whenever `lsm303dlhc_read_accel` or `lsm303dlhc_read_mag` returns
anything other than success, the output sample of the caller is what it was
before the call: none of its fields is written. -/
theorem read_failure_keeps_sample (bus : I2cBus) (handle : lsm303dlhc_handle_t)
    (data : Option lsm303dlhc_raw_data_t) :
    ((lsm303dlhc_read_accel bus handle data).ret ≠ ESP_OK →
      (lsm303dlhc_read_accel bus handle data).data = data) ∧
    ((lsm303dlhc_read_mag bus handle data).ret ≠ ESP_OK →
      (lsm303dlhc_read_mag bus handle data).data = data) := by
  constructor
  · rcases handle with _ | dev <;> rcases data with _ | old
    · simp [lsm303dlhc_read_accel]
    · simp [lsm303dlhc_read_accel]
    · simp [lsm303dlhc_read_accel]
    · simp only [lsm303dlhc_read_accel, i2c_master_write_read_device]
      simp
      split_ifs <;> simp
  · rcases handle with _ | dev <;> rcases data with _ | old
    · simp [lsm303dlhc_read_mag]
    · simp [lsm303dlhc_read_mag]
    · simp [lsm303dlhc_read_mag]
    · simp only [lsm303dlhc_read_mag, i2c_master_write_read_device]
      simp
      split_ifs <;> simp

/-- C20 at a concrete input: both reads fail with -1 on the first
transaction and the sample (1, 2, 3) is kept. -/
theorem read_failure_keeps_sample_witness :
    (lsm303dlhc_read_accel (I2cBus.fresh (bus_fail_at 0 (-1))) (some app_dev)
      (some { x := 1, y := 2, z := 3 })).data = some { x := 1, y := 2, z := 3 } ∧
    (lsm303dlhc_read_mag (I2cBus.fresh (bus_fail_at 0 (-1))) (some app_dev)
      (some { x := 1, y := 2, z := 3 })).data = some { x := 1, y := 2, z := 3 } :=
  have h := read_failure_keeps_sample (I2cBus.fresh (bus_fail_at 0 (-1))) (some app_dev)
    (some { x := 1, y := 2, z := 3 })
  ⟨h.1 (by decide), h.2 (by decide)⟩

/-! ## Magnetometer rate and gain bytes -/

/-- C17: the magnetometer rates have the values 0..7 and the gains the
values 1..7; the third write of `lsm303dlhc_init`, issued exactly when the
first two succeeded, carries `rate << 2` to register 0x00 of the
magnetometer, a byte whose bits 2-4 are the rate and whose other bits are
clear; the fourth write, issued exactly when the first three succeeded,
carries `gain << 5` to register 0x01, a byte whose bits 5-7 are the gain and
whose bits 0-4 are clear; both bytes fit eight bits, so rate and gain are
read back from them by shifting right. -/
theorem init_mag_rate_gain_bytes (replies : Nat → Reply) (config : lsm303dlhc_config_t)
    (slot : lsm303dlhc_handle_t) :
    (lsm303dlhc_init (I2cBus.fresh replies) true (some config) (some slot)).bus.log[2]? =
      (if (replies 0).err = ESP_OK ∧ (replies 1).err = ESP_OK then
        some (Txn.write config.i2c_port 0x1E [0x00, config.mag_odr.val <<< 2])
       else none) ∧
    (lsm303dlhc_init (I2cBus.fresh replies) true (some config) (some slot)).bus.log[3]? =
      (if (replies 0).err = ESP_OK ∧ (replies 1).err = ESP_OK ∧ (replies 2).err = ESP_OK then
        some (Txn.write config.i2c_port 0x1E [0x01, config.mag_gain.val <<< 5])
       else none) ∧
    cra_m config = config.mag_odr.val <<< 2 ∧
    crb_m config = config.mag_gain.val <<< 5 ∧
    (config.mag_odr.val <<< 2 < 256 ∧
     ((config.mag_odr.val <<< 2) >>> 2) &&& 0x7 = config.mag_odr.val ∧
     (config.mag_odr.val <<< 2) >>> 2 = config.mag_odr.val ∧
     (config.mag_odr.val <<< 2) &&& 0xE3 = 0) ∧
    (config.mag_gain.val <<< 5 < 256 ∧
     ((config.mag_gain.val <<< 5) >>> 5) &&& 0x7 = config.mag_gain.val ∧
     (config.mag_gain.val <<< 5) >>> 5 = config.mag_gain.val ∧
     (config.mag_gain.val <<< 5) &&& 0x1F = 0) ∧
    [lsm303dlhc_mag_odr_t.LSM303DLHC_MAG_ODR_0_75HZ.val,
     lsm303dlhc_mag_odr_t.LSM303DLHC_MAG_ODR_1_5HZ.val,
     lsm303dlhc_mag_odr_t.LSM303DLHC_MAG_ODR_3_0HZ.val,
     lsm303dlhc_mag_odr_t.LSM303DLHC_MAG_ODR_7_5HZ.val,
     lsm303dlhc_mag_odr_t.LSM303DLHC_MAG_ODR_15HZ.val,
     lsm303dlhc_mag_odr_t.LSM303DLHC_MAG_ODR_30HZ.val,
     lsm303dlhc_mag_odr_t.LSM303DLHC_MAG_ODR_75HZ.val,
     lsm303dlhc_mag_odr_t.LSM303DLHC_MAG_ODR_220HZ.val] = [0, 1, 2, 3, 4, 5, 6, 7] ∧
    [lsm303dlhc_mag_gain_t.LSM303DLHC_MAG_GAIN_1_3.val,
     lsm303dlhc_mag_gain_t.LSM303DLHC_MAG_GAIN_1_9.val,
     lsm303dlhc_mag_gain_t.LSM303DLHC_MAG_GAIN_2_5.val,
     lsm303dlhc_mag_gain_t.LSM303DLHC_MAG_GAIN_4_0.val,
     lsm303dlhc_mag_gain_t.LSM303DLHC_MAG_GAIN_4_7.val,
     lsm303dlhc_mag_gain_t.LSM303DLHC_MAG_GAIN_5_6.val,
     lsm303dlhc_mag_gain_t.LSM303DLHC_MAG_GAIN_8_1.val] = [1, 2, 3, 4, 5, 6, 7] := by
  refine ⟨?_, ?_, cra_m_eq config, crb_m_eq config, ?_, ?_, by decide, by decide⟩
  · simp only [lsm303dlhc_init, write_reg, i2c_master_write_to_device, I2cBus.fresh,
      ← cra_m_eq, lsm303dlhc_init_err, LSM303DLHC_MAG_ADDR, LSM303_CRA_REG_M]
    simp
    split_ifs <;> simp_all
  · simp only [lsm303dlhc_init, write_reg, i2c_master_write_to_device, I2cBus.fresh,
      ← crb_m_eq, lsm303dlhc_init_err, LSM303DLHC_MAG_ADDR, LSM303_CRB_REG_M]
    simp
    split_ifs <;> simp_all
  · rcases config with ⟨port, fs, odr, modr, gain⟩
    cases modr <;> simp only [lsm303dlhc_mag_odr_t.val] <;> decide
  · rcases config with ⟨port, fs, odr, modr, gain⟩
    cases gain <;> simp only [lsm303dlhc_mag_gain_t.val] <;> decide

/-! ## The two event generators compared -/

/-- C19: for every handle, present or null, every configuration reference,
present or null, and every sequence of bus results,
`lsm303dlhc_config_int2_event` returns the same status as
`lsm303dlhc_config_int1_event` and its bus log is the log of the latter with
each register address raised by 4 (0x30 to 0x34, 0x32 to 0x36, 0x33 to 0x37):
the same number of writes carrying the same data bytes in the same order. -/
theorem int2_event_is_int1_raised_by_4 (replies : Nat → Reply)
    (handle : lsm303dlhc_handle_t) (conf : Option lsm303dlhc_int_event_conf_t) :
    (lsm303dlhc_config_int2_event (I2cBus.fresh replies) handle conf).1 =
      (lsm303dlhc_config_int1_event (I2cBus.fresh replies) handle conf).1 ∧
    (lsm303dlhc_config_int2_event (I2cBus.fresh replies) handle conf).2.log =
      List.map (raise_reg 4)
        (lsm303dlhc_config_int1_event (I2cBus.fresh replies) handle conf).2.log ∧
    (lsm303dlhc_config_int2_event (I2cBus.fresh replies) handle conf).2.log.length =
      (lsm303dlhc_config_int1_event (I2cBus.fresh replies) handle conf).2.log.length ∧
    LSM303_INT2_CFG_A = LSM303_INT1_CFG_A + 4 ∧
    LSM303_INT2_THS_A = LSM303_INT1_THS_A + 4 ∧
    LSM303_INT2_DURATION_A = LSM303_INT1_DURATION_A + 4 ∧
    (LSM303_INT1_CFG_A = 0x30 ∧ LSM303_INT1_THS_A = 0x32 ∧ LSM303_INT1_DURATION_A = 0x33) := by
  refine ⟨?_, ?_, ?_, rfl, rfl, rfl, rfl, rfl, rfl⟩
  all_goals
    rcases handle with _ | dev <;> rcases conf with _ | conf
    · simp [lsm303dlhc_config_int1_event, lsm303dlhc_config_int2_event,
        config_int_event_gen, I2cBus.fresh]
    · simp [lsm303dlhc_config_int1_event, lsm303dlhc_config_int2_event,
        config_int_event_gen, I2cBus.fresh]
    · simp [lsm303dlhc_config_int1_event, lsm303dlhc_config_int2_event,
        config_int_event_gen, I2cBus.fresh]
    · simp only [lsm303dlhc_config_int1_event, lsm303dlhc_config_int2_event,
        config_int_event_gen, write_reg, i2c_master_write_to_device, I2cBus.fresh,
        LSM303_INT1_CFG_A, LSM303_INT1_THS_A, LSM303_INT1_DURATION_A,
        LSM303_INT2_CFG_A, LSM303_INT2_THS_A, LSM303_INT2_DURATION_A]
      simp
      split_ifs <;> simp [raise_reg]

end LSM303DLHC
